import Mathlib

/-!
Shallow embedding of the clinic-audit SaaS core, translated from the
repository's source:

* Scoring Engine: `calculateMonth` / `calculateScores` from
  `FRONTEND_GUIDE.md` (src/utils/calculations.js).
* Audit Aggregate Store: the `/api/audits` Express router
  (GET /, GET /:month, POST /, DELETE /:month) over a relational state.
* Tenant Access Guard: the `authenticate` middleware.
* Identity & Credential Manager: login, forgot-password and
  reset-password routes from `backend/routes/users.js`.

Numbers are modelled as rationals (JavaScript numerics on the in-range
inputs used here behave as exact arithmetic for these formulas, except
that true division never throws; the source guards every division).
Database identifiers (UUIDs in the schema) are modelled as naturals drawn
from a `nextId` counter; freshness is what matters, not the UUID format.
-/

namespace ClinicAudit

/-- Models the JavaScript idiom `x || d` on a numeric value already parsed
to a number: `0` is falsy and is replaced by the default `d`. -/
def jsOr (x d : Rat) : Rat := if x = 0 then d else x

/-- Models `parseInt` on the nonnegative numeric inputs used by
`calculateMonth` (truncation; equal to floor on nonnegative values). -/
def jsParseInt (x : Rat) : Rat := ((⌊x⌋ : Int) : Rat)

/-- Input shape of one payroll line as submitted to the API
(`item.amount` may be absent, the route applies `|| 0`). -/
structure PayrollItemInput where
  name : String
  amount : Option Rat
  deriving DecidableEq, Repr

/-- Input shape of one additional-expense line. -/
structure ExpenseItemInput where
  name : String
  amount : Option Rat
  notes : Option String
  deriving DecidableEq, Repr

/-- Input shape of one service line. -/
structure ServiceItemInput where
  name : String
  providerHours : Option Rat
  bookedHours : Option Rat
  revenue : Option Rat
  commission : Option Rat
  allocatedExpenses : Option Rat
  deriving DecidableEq, Repr

/-- Models `x || 0` on a possibly-absent numeric field: absent
(`undefined`) and `0` both yield `0`. -/
def jsNum (x : Option Rat) : Rat :=
  match x with
  | none => 0
  | some v => v

/-- Models `s || null` on a possibly-absent string field: absent and the
empty string are falsy and yield null (`none`). -/
def jsStrOrNull (x : Option String) : Option String :=
  match x with
  | none => none
  | some s => if s = "" then none else some s

/-- The month record consumed by `calculateMonth`
(`src/utils/calculations.js` in FRONTEND_GUIDE.md). Numeric fields hold
the raw numbers of the audit; the three child lists are the audit's
payroll, additional expenses and services. -/
structure MonthData where
  revenue : Rat
  operatingExpenses : Rat
  cogs : Rat
  websiteVisits : Rat
  websiteConversionRate : Rat
  newClientVisits : Rat
  clientsConvertingToTreatment : Rat
  totalClients : Rat
  payroll : List PayrollItemInput
  expenses : List ExpenseItemInput
  services : List ServiceItemInput
  deriving DecidableEq, Repr

/-- The derived-metrics record returned by `calculateMonth`. -/
structure Metrics where
  revenue : Rat
  totalOperatingExpenses : Rat
  totalPayroll : Rat
  totalAdditionalExpenses : Rat
  cogs : Rat
  profit : Rat
  profitMargin : Rat
  capacity : Rat
  totalProviderHours : Rat
  totalBookedHours : Rat
  clientValue : Rat
  totalClients : Rat
  websiteVisits : Rat
  newClientVisits : Rat
  clientsConvertingToTreatment : Rat
  websiteConversionRate : Rat
  treatmentPlanConversionRate : Rat
  deriving DecidableEq, Repr

/-- Translation of `calculateMonth(monthData)` from
FRONTEND_GUIDE.md / `src/utils/calculations.js`. -/
def calculateMonth (monthData : MonthData) : Metrics :=
  let totalPayroll := (monthData.payroll.map (fun item => jsNum item.amount)).sum
  let totalAdditionalExpenses := (monthData.expenses.map (fun item => jsNum item.amount)).sum
  let totalOperatingExpenses := jsOr monthData.operatingExpenses 0 + totalAdditionalExpenses
  let totalProviderHours := (monthData.services.map (fun s => jsNum s.providerHours)).sum
  let totalBookedHours := (monthData.services.map (fun s => jsNum s.bookedHours)).sum
  let capacity := if totalProviderHours > 0 then totalBookedHours / totalProviderHours else 0
  let profit := jsOr monthData.revenue 0 - totalOperatingExpenses - totalPayroll - jsOr monthData.cogs 0
  let profitMargin := if monthData.revenue > 0 then (profit / monthData.revenue) * 100 else 0
  let clientValue := if monthData.totalClients > 0 then monthData.revenue / monthData.totalClients else 0
  let websiteConversionRate := jsOr monthData.websiteConversionRate 0 / 100
  let treatmentPlanConversionRate :=
    if monthData.newClientVisits > 0 then
      jsOr monthData.clientsConvertingToTreatment 0 / monthData.newClientVisits
    else 0
  { revenue := jsOr monthData.revenue 0
    totalOperatingExpenses := totalOperatingExpenses
    totalPayroll := totalPayroll
    totalAdditionalExpenses := totalAdditionalExpenses
    cogs := jsOr monthData.cogs 0
    profit := profit
    profitMargin := profitMargin
    capacity := capacity
    totalProviderHours := totalProviderHours
    totalBookedHours := totalBookedHours
    clientValue := clientValue
    totalClients := jsParseInt (jsOr monthData.totalClients 0)
    websiteVisits := jsParseInt (jsOr monthData.websiteVisits 0)
    newClientVisits := jsParseInt (jsOr monthData.newClientVisits 0)
    clientsConvertingToTreatment := jsParseInt (jsOr monthData.clientsConvertingToTreatment 0)
    websiteConversionRate := websiteConversionRate
    treatmentPlanConversionRate := treatmentPlanConversionRate }

/-- The goals record consumed by `calculateScores`; the source applies
`|| default` to each field, so a zero value falls back to the default. -/
structure GoalsInput where
  revenueGoal : Rat
  profitMarginGoal : Rat
  capacityGoal : Rat
  deriving DecidableEq, Repr

/-- The score record returned by `calculateScores`. -/
structure Scores where
  financialScore : Rat
  capacityScore : Rat
  newClientFlowScore : Rat
  marketingScore : Rat
  totalScore : Rat
  deriving DecidableEq, Repr

/-- Translation of `calculateScores(metrics, goals)` from
FRONTEND_GUIDE.md / `src/utils/calculations.js`. -/
def calculateScores (metrics : Metrics) (goals : GoalsInput) : Scores :=
  let revenueGoal := jsOr goals.revenueGoal 100000
  let profitMarginGoal := jsOr goals.profitMarginGoal 30
  let capacityGoal := jsOr goals.capacityGoal 80 / 100
  let revenuePct := if revenueGoal > 0 then metrics.revenue / revenueGoal else 0
  let profitMarginPct := if profitMarginGoal > 0 then metrics.profitMargin / profitMarginGoal else 0
  let revenueScore := min 12.5 (revenuePct * 12.5)
  let marginScore := min 12.5 (profitMarginPct * 12.5)
  let financialScore := revenueScore + marginScore
  let capacityPct := if capacityGoal > 0 then metrics.capacity / capacityGoal else 0
  let capacityScore := min 25 (capacityPct * 25)
  let volumeScore := min 15 ((metrics.newClientVisits / 30) * 15)
  let continuationScore := min 10 ((metrics.treatmentPlanConversionRate / 0.5) * 10)
  let newClientFlowScore := volumeScore + continuationScore
  let trafficScore := min 10 ((metrics.websiteVisits / 1200) * 10)
  let conversionScore := min 10 ((metrics.websiteConversionRate / 0.02) * 10)
  let resultsScore := min 5 ((metrics.newClientVisits / 24) * 5)
  let marketingScore := trafficScore + conversionScore + resultsScore
  let totalScore := financialScore + capacityScore + newClientFlowScore + marketingScore
  { financialScore := financialScore
    capacityScore := capacityScore
    newClientFlowScore := newClientFlowScore
    marketingScore := marketingScore
    totalScore := totalScore }

/-! ## Audit Aggregate Store

Relational state for `monthly_audits`, `payroll_items`,
`additional_expenses` and `services` (DATABASE_SCHEMA.sql), and the four
operations of the `/api/audits` Express router. -/

/-- Result of a route handler: an HTTP-level success payload or an
error with its status code and message. -/
inductive Api (α : Type) where
  | ok : α → Api α
  | err : Nat → String → Api α
  deriving DecidableEq, Repr

/-- A row of `monthly_audits`. `audit_month` holds the normalized
`YYYY-MM-01` date as text. -/
structure AuditRow where
  id : Nat
  clinic_id : Nat
  audit_month : String
  clinic_name : Option String
  revenue : Rat
  operating_expenses : Rat
  cogs : Rat
  website_visits : Rat
  website_conversion_rate : Rat
  new_client_visits : Rat
  clients_converting_to_treatment : Rat
  total_clients : Rat
  total_appointments : Rat
  marketing_spend : Rat
  created_by : Nat
  deriving DecidableEq, Repr

/-- A row of `payroll_items`. -/
structure PayrollRow where
  id : Nat
  monthly_audit_id : Nat
  name : String
  amount : Rat
  deriving DecidableEq, Repr

/-- A row of `additional_expenses`. -/
structure ExpenseRow where
  id : Nat
  monthly_audit_id : Nat
  name : String
  amount : Rat
  notes : Option String
  deriving DecidableEq, Repr

/-- A row of `services`. -/
structure ServiceRow where
  id : Nat
  monthly_audit_id : Nat
  name : String
  provider_hours : Rat
  booked_hours : Rat
  revenue : Rat
  commission : Rat
  allocated_expenses : Rat
  deriving DecidableEq, Repr

/-- The audit-store database state. `nextId` models the id generator:
every stored id was drawn from it, so fresh ids collide with nothing. -/
structure AuditDb where
  audits : List AuditRow
  payrollItems : List PayrollRow
  additionalExpenses : List ExpenseRow
  services : List ServiceRow
  nextId : Nat
  deriving DecidableEq, Repr

/-- The object built by `jsonb_build_object('id',p.id,'name',p.name,'amount',p.amount)`. -/
structure PayrollJson where
  id : Nat
  name : String
  amount : Rat
  deriving DecidableEq, Repr

/-- The expense object built by the `json_agg` select. -/
structure ExpenseJson where
  id : Nat
  name : String
  amount : Rat
  notes : Option String
  deriving DecidableEq, Repr

/-- The service object built by the `json_agg` select. -/
structure ServiceJson where
  id : Nat
  name : String
  provider_hours : Rat
  booked_hours : Rat
  revenue : Rat
  commission : Rat
  allocated_expenses : Rat
  deriving DecidableEq, Repr

/-- Projection of a `payroll_items` row to its aggregate object. -/
def payrollJson (p : PayrollRow) : PayrollJson :=
  { id := p.id, name := p.name, amount := p.amount }

/-- Projection of an `additional_expenses` row to its aggregate object. -/
def expenseJson (e : ExpenseRow) : ExpenseJson :=
  { id := e.id, name := e.name, amount := e.amount, notes := e.notes }

/-- Projection of a `services` row to its aggregate object. -/
def serviceJson (s : ServiceRow) : ServiceJson :=
  { id := s.id, name := s.name, provider_hours := s.provider_hours
    booked_hours := s.booked_hours, revenue := s.revenue
    commission := s.commission, allocated_expenses := s.allocated_expenses }

/-- Models `json_agg(DISTINCT obj) FILTER (WHERE child.id IS NOT NULL)`
over the rows matched for one audit: over zero rows the aggregate is SQL
NULL (`none`); otherwise the distinct objects (`dedup` models DISTINCT). -/
def aggJson {α : Type} [DecidableEq α] (xs : List α) : Option (List α) :=
  if xs.dedup.isEmpty then none else some xs.dedup

/-- One row of the composite select: the audit row (`ma.*`) plus the
three aggregated child columns, each nullable. -/
structure AuditComposite where
  row : AuditRow
  payroll : Option (List PayrollJson)
  expenses : Option (List ExpenseJson)
  services : Option (List ServiceJson)
  deriving DecidableEq, Repr

/-- Builds the composite row for one audit: the left joins grouped by
`ma.id` collect exactly the children whose `monthly_audit_id` equals the
audit's id, and each `json_agg ... FILTER` aggregates them (NULL when
there is no child). -/
def compositeFor (db : AuditDb) (a : AuditRow) : AuditComposite :=
  { row := a
    payroll := aggJson ((db.payrollItems.filter (fun p => p.monthly_audit_id == a.id)).map payrollJson)
    expenses := aggJson ((db.additionalExpenses.filter (fun e => e.monthly_audit_id == a.id)).map expenseJson)
    services := aggJson ((db.services.filter (fun s => s.monthly_audit_id == a.id)).map serviceJson) }

/-- Insertion step of the `ORDER BY ma.audit_month DESC` sort: keeps the
list ordered with the largest month first. -/
def monthDescInsert (a : AuditRow) : List AuditRow → List AuditRow
  | [] => [a]
  | b :: rest =>
    if b.audit_month ≤ a.audit_month then a :: b :: rest
    else b :: monthDescInsert a rest

/-- Sorts audit rows by `audit_month` descending (insertion sort). -/
def sortByMonthDesc (l : List AuditRow) : List AuditRow :=
  l.foldr monthDescInsert []

/-- GET `/api/audits`: all composite audits of the caller's clinic,
`WHERE ma.clinic_id = $1 ... ORDER BY ma.audit_month DESC`, with
`$1 = req.user.clinic_id`. -/
def listAudits (clinicId : Nat) (db : AuditDb) : List AuditComposite :=
  (sortByMonthDesc (db.audits.filter (fun a => a.clinic_id == clinicId))).map (compositeFor db)

/-- Month normalization applied by the router: the `YYYY-MM` parameter
becomes the `YYYY-MM-01` key. -/
def auditKey (month : String) : String := month ++ "-01"

/-- GET `/api/audits/:month`: the composite audit matching
`ma.clinic_id = $1 AND ma.audit_month = $2`, or 404 when no row matches. -/
def getAudit (clinicId : Nat) (month : String) (db : AuditDb) : Api AuditComposite :=
  match db.audits.filter
      (fun a => a.clinic_id == clinicId && a.audit_month == auditKey month) with
  | [] => .err 404 "Audit not found"
  | a :: _ => .ok (compositeFor db a)

/-- DELETE `/api/audits/:month`: deletes the clinic's audit row for the
month (404 if absent); `ON DELETE CASCADE` on the three child tables
removes the children of every deleted audit. -/
def deleteAudit (clinicId : Nat) (month : String) (db : AuditDb) : Api String × AuditDb :=
  let key := auditKey month
  let doomed := db.audits.filter
    (fun a => a.clinic_id == clinicId && a.audit_month == key)
  if doomed.isEmpty then (.err 404 "Audit not found", db)
  else
    (.ok "Audit deleted successfully",
      { db with
        audits := db.audits.filter
          (fun a => !(a.clinic_id == clinicId && a.audit_month == key))
        payrollItems := db.payrollItems.filter
          (fun p => !(doomed.any (fun a => a.id == p.monthly_audit_id)))
        additionalExpenses := db.additionalExpenses.filter
          (fun e => !(doomed.any (fun a => a.id == e.monthly_audit_id)))
        services := db.services.filter
          (fun s => !(doomed.any (fun a => a.id == s.monthly_audit_id))) })

/-- The request body of POST `/api/audits`; absent numeric fields
default to 0 (`|| 0`) and absent child arrays are skipped. -/
structure AuditInput where
  auditMonth : String
  clinicName : Option String
  revenue : Option Rat
  operatingExpenses : Option Rat
  cogs : Option Rat
  websiteVisits : Option Rat
  websiteConversionRate : Option Rat
  newClientVisits : Option Rat
  clientsConvertingToTreatment : Option Rat
  totalClients : Option Rat
  totalAppointments : Option Rat
  marketingSpend : Option Rat
  payroll : Option (List PayrollItemInput)
  expenses : Option (List ExpenseItemInput)
  services : Option (List ServiceItemInput)
  deriving DecidableEq, Repr

/-- Models `if (arr && arr.length > 0) for (... of arr)`: an absent
array contributes no iterations, and so does an empty one. -/
def jsList {α : Type} (x : Option (List α)) : List α :=
  match x with
  | none => []
  | some l => l

/-- The `DO UPDATE SET` clause of the upsert: overwrites the listed data
fields of the conflicting row; `id`, `clinic_id`, `audit_month` and
`created_by` are untouched. -/
def applyConflictUpdate (input : AuditInput) (a : AuditRow) : AuditRow :=
  { a with
    clinic_name := input.clinicName
    revenue := jsNum input.revenue
    operating_expenses := jsNum input.operatingExpenses
    cogs := jsNum input.cogs
    website_visits := jsNum input.websiteVisits
    website_conversion_rate := jsNum input.websiteConversionRate
    new_client_visits := jsNum input.newClientVisits
    clients_converting_to_treatment := jsNum input.clientsConvertingToTreatment
    total_clients := jsNum input.totalClients
    total_appointments := jsNum input.totalAppointments
    marketing_spend := jsNum input.marketingSpend }

/-- The row inserted by the upsert when no `(clinic_id, audit_month)`
conflict exists. -/
def freshAuditRow (clinicId userId : Nat) (input : AuditInput) (id : Nat) : AuditRow :=
  { id := id
    clinic_id := clinicId
    audit_month := auditKey input.auditMonth
    clinic_name := input.clinicName
    revenue := jsNum input.revenue
    operating_expenses := jsNum input.operatingExpenses
    cogs := jsNum input.cogs
    website_visits := jsNum input.websiteVisits
    website_conversion_rate := jsNum input.websiteConversionRate
    new_client_visits := jsNum input.newClientVisits
    clients_converting_to_treatment := jsNum input.clientsConvertingToTreatment
    total_clients := jsNum input.totalClients
    total_appointments := jsNum input.totalAppointments
    marketing_spend := jsNum input.marketingSpend
    created_by := userId }

/-- The id returned by `INSERT ... ON CONFLICT ... RETURNING id`: the
conflicting row's id when the clinic already has the month, else the
fresh id the insert will use. -/
def upsertTargetId (clinicId : Nat) (input : AuditInput) (db : AuditDb) : Nat :=
  match db.audits.find?
      (fun a => a.clinic_id == clinicId && a.audit_month == auditKey input.auditMonth) with
  | some a => a.id
  | none => db.nextId

/-- The upsert query of POST `/api/audits` (insert or full-field
overwrite keyed on the unique `(clinic_id, audit_month)` pair). -/
def upsertAudit (clinicId userId : Nat) (input : AuditInput) (db : AuditDb) : AuditDb :=
  match db.audits.find?
      (fun a => a.clinic_id == clinicId && a.audit_month == auditKey input.auditMonth) with
  | some _ =>
    { db with
      audits := db.audits.map
        (fun a =>
          if a.clinic_id == clinicId && a.audit_month == auditKey input.auditMonth then
            applyConflictUpdate input a
          else a) }
  | none =>
    { db with
      audits := db.audits ++ [freshAuditRow clinicId userId input db.nextId]
      nextId := db.nextId + 1 }

/-- `DELETE FROM payroll_items WHERE monthly_audit_id = $1`. -/
def deletePayrollFor (auditId : Nat) (db : AuditDb) : AuditDb :=
  { db with payrollItems := db.payrollItems.filter (fun p => !(p.monthly_audit_id == auditId)) }

/-- `DELETE FROM additional_expenses WHERE monthly_audit_id = $1`. -/
def deleteExpensesFor (auditId : Nat) (db : AuditDb) : AuditDb :=
  { db with additionalExpenses := db.additionalExpenses.filter (fun e => !(e.monthly_audit_id == auditId)) }

/-- `DELETE FROM services WHERE monthly_audit_id = $1`. -/
def deleteServicesFor (auditId : Nat) (db : AuditDb) : AuditDb :=
  { db with services := db.services.filter (fun s => !(s.monthly_audit_id == auditId)) }

/-- One `INSERT INTO payroll_items` of the re-insert loop. -/
def insertPayrollItem (auditId : Nat) (item : PayrollItemInput) (db : AuditDb) : AuditDb :=
  { db with
    payrollItems := db.payrollItems ++
      [{ id := db.nextId, monthly_audit_id := auditId
         name := item.name, amount := jsNum item.amount }]
    nextId := db.nextId + 1 }

/-- One `INSERT INTO additional_expenses` of the re-insert loop
(`item.notes || null`). -/
def insertExpenseItem (auditId : Nat) (item : ExpenseItemInput) (db : AuditDb) : AuditDb :=
  { db with
    additionalExpenses := db.additionalExpenses ++
      [{ id := db.nextId, monthly_audit_id := auditId
         name := item.name, amount := jsNum item.amount
         notes := jsStrOrNull item.notes }]
    nextId := db.nextId + 1 }

/-- One `INSERT INTO services` of the re-insert loop. -/
def insertServiceItem (auditId : Nat) (item : ServiceItemInput) (db : AuditDb) : AuditDb :=
  { db with
    services := db.services ++
      [{ id := db.nextId, monthly_audit_id := auditId
         name := item.name
         provider_hours := jsNum item.providerHours
         booked_hours := jsNum item.bookedHours
         revenue := jsNum item.revenue
         commission := jsNum item.commission
         allocated_expenses := jsNum item.allocatedExpenses }]
    nextId := db.nextId + 1 }

/-- The sequence of queries POST `/api/audits` runs inside its
transaction, in source order: the upsert, the three child deletes, then
one insert per submitted child. `auditId` is the id the upsert returns,
determined by the pre-transaction state. -/
def saveSteps (clinicId userId : Nat) (input : AuditInput) (db0 : AuditDb) :
    List (AuditDb → AuditDb) :=
  let auditId := upsertTargetId clinicId input db0
  [upsertAudit clinicId userId input,
   deletePayrollFor auditId, deleteExpensesFor auditId, deleteServicesFor auditId]
  ++ (jsList input.payroll).map (fun item => insertPayrollItem auditId item)
  ++ (jsList input.expenses).map (fun item => insertExpenseItem auditId item)
  ++ (jsList input.services).map (fun item => insertServiceItem auditId item)

/-- Runs the transaction's queries in order; `failAt = some k` makes the
k-th query throw, abandoning the remaining queries (`none` result). -/
def applySteps : List (AuditDb → AuditDb) → Nat → Option Nat → AuditDb → Option AuditDb
  | [], _, _, db => some db
  | f :: rest, i, failAt, db =>
    if failAt = some i then none else applySteps rest (i + 1) failAt (f db)

/-- POST `/api/audits`: `BEGIN`, the upsert + child replace, `COMMIT`;
on any query's failure the catch block issues `ROLLBACK`, so the visible
state reverts to the pre-call state and the route answers 500. -/
def saveAudit (clinicId userId : Nat) (input : AuditInput) (failAt : Option Nat)
    (db0 : AuditDb) : Api Nat × AuditDb :=
  match applySteps (saveSteps clinicId userId input db0) 0 failAt db0 with
  | some db1 => (.ok (upsertTargetId clinicId input db0), db1)
  | none => (.err 500 "Failed to save audit", db0)

/-- Schema facts the SQL constraints guarantee for every reachable
state: `(clinic_id, audit_month)` unique, primary keys unique, and every
stored id (and child reference) already drawn from the id generator. -/
structure AuditDb.WF (db : AuditDb) : Prop where
  keysUnique : db.audits.Pairwise (fun a b => a.clinic_id ≠ b.clinic_id ∨ a.audit_month ≠ b.audit_month)
  idsUnique : db.audits.Pairwise (fun a b => a.id ≠ b.id)
  idsLt : ∀ a ∈ db.audits, a.id < db.nextId
  payrollRefLt : ∀ p ∈ db.payrollItems, p.monthly_audit_id < db.nextId
  expenseRefLt : ∀ e ∈ db.additionalExpenses, e.monthly_audit_id < db.nextId
  serviceRefLt : ∀ s ∈ db.services, s.monthly_audit_id < db.nextId

/-- The stored payroll children of one audit id. -/
def payrollOf (db : AuditDb) (auditId : Nat) : List PayrollRow :=
  db.payrollItems.filter (fun p => p.monthly_audit_id == auditId)

/-- The stored expense children of one audit id. -/
def expensesOf (db : AuditDb) (auditId : Nat) : List ExpenseRow :=
  db.additionalExpenses.filter (fun e => e.monthly_audit_id == auditId)

/-- The stored service children of one audit id. -/
def servicesOf (db : AuditDb) (auditId : Nat) : List ServiceRow :=
  db.services.filter (fun s => s.monthly_audit_id == auditId)

/-- The stored audit rows of one clinic and month key. -/
def auditRowsFor (db : AuditDb) (clinicId : Nat) (month : String) : List AuditRow :=
  db.audits.filter (fun a => a.clinic_id == clinicId && a.audit_month == auditKey month)

/-! ## Tenant Access Guard and Identity & Credential Manager

The `authenticate` middleware (`middleware/auth.js`) and the login,
forgot-password and reset-password routes (`backend/routes/users.js`). -/

/-- A row of `users`. -/
structure UserRow where
  id : Nat
  email : String
  password_hash : String
  first_name : String
  last_name : String
  role : String
  clinic_id : Nat
  is_active : Bool
  last_login_at : Option Nat
  deriving DecidableEq, Repr

/-- A row of `password_reset_tokens`. -/
structure ResetTokenRow where
  id : Nat
  user_id : Nat
  token : String
  expires_at : Nat
  used : Bool
  deriving DecidableEq, Repr

/-- State for the identity routes: the `users` and
`password_reset_tokens` tables plus the id generator. -/
structure AuthDb where
  users : List UserRow
  resetTokens : List ResetTokenRow
  nextId : Nat
  deriving DecidableEq, Repr

/-- Model of `bcrypt.hash`: an opaque, injective one-way digest. -/
def bcryptHash (password : String) : String := "bcrypt-digest-of-" ++ password

/-- Model of `bcrypt.compare`: succeeds exactly when the digest was
produced from the presented plaintext. -/
def bcryptCompare (password digest : String) : Bool := bcryptHash password == digest

/-- The `authenticate` middleware: `decoded` is the outcome of
`jwt.verify` on the bearer token (`none` for a missing, malformed or
expired token); the user is then fetched by the decoded id and an
inactive account is rejected with 403. On success the principal attached
to the request is the fetched user row, so every clinic scope downstream
comes from `req.user.clinic_id`, never from client input. -/
def authenticate (users : List UserRow) (decoded : Option Nat) : Api UserRow :=
  match decoded with
  | none => .err 401 "Invalid or expired token"
  | some userId =>
    match users.find? (fun u => u.id == userId) with
    | none => .err 401 "User not found"
    | some u =>
      if !u.is_active then .err 403 "Account is inactive"
      else .ok u

/-- Success payload of login: the JWT claims plus profile data. -/
structure LoginOk where
  userId : Nat
  clinicId : Nat
  role : String
  deriving DecidableEq, Repr

/-- POST `/api/auth/login`: unknown email and mismatched password both
answer 401 with the same message; an inactive account answers 403 before
the password is compared; success updates `last_login_at` and issues the
token claims. -/
def login (db : AuthDb) (email password : String) (now : Nat) : Api LoginOk × AuthDb :=
  match db.users.find? (fun u => u.email == email) with
  | none => (.err 401 "Invalid email or password", db)
  | some u =>
    if !u.is_active then (.err 403 "Account is inactive", db)
    else if !bcryptCompare password u.password_hash then
      (.err 401 "Invalid email or password", db)
    else
      (.ok { userId := u.id, clinicId := u.clinic_id, role := u.role },
       { db with
         users := db.users.map
           (fun v => if v.id == u.id then { v with last_login_at := some now } else v) })

/-- The anti-enumeration success message of the forgot-password route. -/
def resetRequestedMsg : String := "If that email exists, a password reset link has been sent"

/-- POST `/api/auth/forgot-password`: looks the user up by email; when
absent, answers the success message without touching the state. When
present, inserts a reset-token row (committed immediately — the route
uses plain `pool.query`, no transaction) and then awaits `sendEmail`,
which logs and rethrows on failure (`emailOk = false`), making the catch
block answer 500; on send success the route answers the same success
message. `newToken` models `crypto.randomBytes(32).toString('hex')` and
`expiryMs` the configured `PASSWORD_RESET_EXPIRY_HOURS` in epoch
milliseconds. -/
def forgotPassword (db : AuthDb) (email newToken : String) (now expiryMs : Nat)
    (emailOk : Bool) : Api String × AuthDb :=
  match db.users.find? (fun u => u.email == email) with
  | none => (.ok resetRequestedMsg, db)
  | some u =>
    let db1 : AuthDb :=
      { db with
        resetTokens := db.resetTokens ++
          [{ id := db.nextId, user_id := u.id, token := newToken
             expires_at := now + expiryMs, used := false }]
        nextId := db.nextId + 1 }
    if emailOk then (.ok resetRequestedMsg, db1)
    else (.err 500 "Failed to process request", db1)

/-- POST `/api/auth/reset-password`: inside one transaction, selects the
token row with `token = $1 AND expires_at > NOW() AND used = false`
(400 when none), updates the user's `password_hash`, and sets
`used = true` on every row with that token. -/
def resetPassword (db : AuthDb) (token newPassword : String) (now : Nat) :
    Api String × AuthDb :=
  match db.resetTokens.find?
      (fun t => t.token == token && decide (now < t.expires_at) && t.used == false) with
  | none => (.err 400 "Invalid or expired reset token", db)
  | some t =>
    (.ok "Password reset successfully",
      { db with
        users := db.users.map
          (fun u =>
            if u.id == t.user_id then { u with password_hash := bcryptHash newPassword }
            else u)
        resetTokens := db.resetTokens.map
          (fun r => if r.token == token then { r with used := true } else r) })

/-! ## Concrete states used by witnesses and counterexamples -/

/-- A clinic-A audit row with no children, used by witness states. -/
def auditRowA : AuditRow :=
  { id := 0, clinic_id := 1, audit_month := "2025-02-01", clinic_name := some "Acme"
    revenue := 85000, operating_expenses := 20000, cogs := 5000
    website_visits := 1000, website_conversion_rate := 2, new_client_visits := 25
    clients_converting_to_treatment := 15, total_clients := 100
    total_appointments := 0, marketing_spend := 0, created_by := 10 }

/-- A clinic-B audit row for the same month, with one payroll child. -/
def auditRowB : AuditRow :=
  { id := 1, clinic_id := 2, audit_month := "2025-02-01", clinic_name := some "Bmed"
    revenue := 40000, operating_expenses := 10000, cogs := 1000
    website_visits := 500, website_conversion_rate := 1, new_client_visits := 10
    clients_converting_to_treatment := 5, total_clients := 50
    total_appointments := 0, marketing_spend := 0, created_by := 11 }

/-- A two-clinic audit store: clinic 1 and clinic 2 each hold an audit
for 2025-02; only clinic 2's audit has a payroll child. -/
def exampleAuditDb : AuditDb :=
  { audits := [auditRowA, auditRowB]
    payrollItems := [{ id := 2, monthly_audit_id := 1, name := "Bstaff", amount := 9000 }]
    additionalExpenses := []
    services := []
    nextId := 3 }

/-- An audit-save request body used by witnesses: one payroll line, one
expense line, one service line. -/
def exampleInput : AuditInput :=
  { auditMonth := "2025-03", clinicName := some "Acme"
    revenue := some 90000, operatingExpenses := some 21000, cogs := some 4000
    websiteVisits := some 1100, websiteConversionRate := some 3
    newClientVisits := some 30, clientsConvertingToTreatment := some 20
    totalClients := some 110, totalAppointments := none, marketingSpend := none
    payroll := some [{ name := "staff", amount := some 8000 }]
    expenses := some [{ name := "rent", amount := some 2500, notes := none }]
    services := some [{ name := "svc", providerHours := some 160, bookedHours := some 120
                        revenue := some 50000, commission := none, allocatedExpenses := none }] }

/-- Identity state: an active user, an inactive user, and one unused
unexpired reset token for the active user. -/
def exampleAuthDb : AuthDb :=
  { users :=
      [{ id := 10, email := "alice@acme.test", password_hash := bcryptHash "password-a"
         first_name := "Alice", last_name := "A", role := "admin", clinic_id := 1
         is_active := true, last_login_at := none },
       { id := 11, email := "bob@bmed.test", password_hash := bcryptHash "password-b"
         first_name := "Bob", last_name := "B", role := "admin", clinic_id := 2
         is_active := false, last_login_at := none }]
    resetTokens :=
      [{ id := 20, user_id := 10, token := "tok-1", expires_at := 1000, used := false },
       { id := 21, user_id := 10, token := "tok-2", expires_at := 1000, used := false }]
    nextId := 30 }

/-- The default goals row created at signup
(`global_goals` column defaults 100000 / 30 / 80). -/
def defaultGoals : GoalsInput :=
  { revenueGoal := 100000, profitMarginGoal := 30, capacityGoal := 80 }

/-- The month record of the spec's worked example (§8): revenue 85000,
operating expenses 20000, cogs 5000, one payroll item of 8000, one
service with 160 provider hours / 120 booked hours / 50000 revenue,
websiteVisits 1000, conversion 2, newClientVisits 25, conversions 15,
totalClients 100. -/
def workedExampleMonth : MonthData :=
  { revenue := 85000, operatingExpenses := 20000, cogs := 5000
    websiteVisits := 1000, websiteConversionRate := 2, newClientVisits := 25
    clientsConvertingToTreatment := 15, totalClients := 100
    payroll := [{ name := "staff", amount := some 8000 }]
    expenses := []
    services := [{ name := "svc", providerHours := some 160, bookedHours := some 120
                   revenue := some 50000, commission := none, allocatedExpenses := none }] }

/-- A loss-making month: ordinary nonnegative raw inputs (revenue 1000,
operating expenses 2000, everything else zero), giving profit -1000 and
profit margin -100. -/
def lossMonth : MonthData :=
  { revenue := 1000, operatingExpenses := 2000, cogs := 0
    websiteVisits := 0, websiteConversionRate := 0, newClientVisits := 0
    clientsConvertingToTreatment := 0, totalClients := 0
    payroll := [], expenses := [], services := [] }

/-! ## Theorems -/

/-- Claim C5: on the worked example (default goals, revenue 85000,
operating expenses 20000, cogs 5000, one payroll item 8000, one service
160/120/50000, visits 1000, conversion 2, new clients 25, conversions
15, clients 100), calculateMonth returns totalPayroll 8000,
totalOperatingExpenses 20000, capacity 0.75, profit 52000, profitMargin
52000/85000*100, and calculateScores returns financialScore 23.125
(revenue half 10.625, margin half capped at 12.5). -/
theorem scoring_worked_example :
    (calculateMonth workedExampleMonth).totalPayroll = 8000 ∧
    (calculateMonth workedExampleMonth).totalOperatingExpenses = 20000 ∧
    (calculateMonth workedExampleMonth).capacity = 0.75 ∧
    (calculateMonth workedExampleMonth).profit = 52000 ∧
    (calculateMonth workedExampleMonth).profitMargin = 52000 / 85000 * 100 ∧
    (calculateScores (calculateMonth workedExampleMonth) defaultGoals).financialScore = 23.125 ∧
    min (12.5 : Rat) ((calculateMonth workedExampleMonth).revenue / 100000 * 12.5) = 10.625 ∧
    min (12.5 : Rat) ((calculateMonth workedExampleMonth).profitMargin / 30 * 12.5) = 12.5 := by
  norm_num [calculateMonth, calculateScores, workedExampleMonth, defaultGoals,
    jsOr, jsNum, jsParseInt, min_def]

/-- Claim C2 (evidence of the code bug): a loss-making month with plain
nonnegative inputs (revenue 1000, operating expenses 2000) and the
default goals yields a financial score and a total score below 0 —
the code never clamps the negative profit-margin contribution, so the
documented 0..25 / 0..100 bounds fail. -/
theorem scoring_financial_score_negative :
    (calculateScores (calculateMonth lossMonth) defaultGoals).financialScore < 0 ∧
    (calculateScores (calculateMonth lossMonth) defaultGoals).totalScore < 0 := by
  norm_num [calculateMonth, calculateScores, lossMonth, defaultGoals,
    jsOr, jsNum, jsParseInt, min_def]

/-- Claim C8 (counterexample): a registered but inactive user presenting
a mismatched password is answered 403 "Account is inactive" (the active
check runs before the password compare), which differs from the 401
"Invalid email or password" an unknown email gets — so the two failure
causes are distinguishable, refuting the claim as stated. -/
theorem login_enumeration_counterexample :
    (login exampleAuthDb "bob@bmed.test" "wrong-password" 0).1 =
      Api.err 403 "Account is inactive" ∧
    (login exampleAuthDb "carol@nowhere.test" "wrong-password" 0).1 =
      Api.err 401 "Invalid email or password" ∧
    (login exampleAuthDb "bob@bmed.test" "wrong-password" 0).1 ≠
      (login exampleAuthDb "carol@nowhere.test" "wrong-password" 0).1 := by
  decide

/-- Claim C8 (amended): for an unknown email, and for a registered
active user with a mismatched password, login fails with the same
caller-visible 401 "Invalid email or password" error. -/
theorem login_anti_enumeration_active (db : AuthDb) (email password : String) (now : Nat) :
    (db.users.find? (fun u => u.email == email) = none →
      (login db email password now).1 = Api.err 401 "Invalid email or password") ∧
    (∀ u, db.users.find? (fun v => v.email == email) = some u →
      u.is_active = true →
      bcryptCompare password u.password_hash = false →
      (login db email password now).1 = Api.err 401 "Invalid email or password") := by
  constructor
  · intro h
    simp [login, h]
  · intro u hu hact hcmp
    simp [login, hu, hact, hcmp]

/-- Witness for the amended C8 theorem at concrete inputs: an unknown
email and the active user alice with a wrong password both answer the
same 401 error. -/
theorem login_anti_enumeration_active_witness :
    (login exampleAuthDb "carol@nowhere.test" "pw" 0).1 =
      Api.err 401 "Invalid email or password" ∧
    (login exampleAuthDb "alice@acme.test" "wrong-password" 0).1 =
      Api.err 401 "Invalid email or password" := by
  refine ⟨(login_anti_enumeration_active exampleAuthDb "carol@nowhere.test" "pw" 0).1 (by decide),
    (login_anti_enumeration_active exampleAuthDb "alice@acme.test" "wrong-password" 0).2
      { id := 10, email := "alice@acme.test", password_hash := bcryptHash "password-a"
        first_name := "Alice", last_name := "A", role := "admin", clinic_id := 1
        is_active := true, last_login_at := none }
      (by decide) (by decide) (by decide)⟩

/-- Claim C6 (counterexample): when the email belongs to a registered
user and the email-send collaborator fails, sendEmail logs and rethrows,
so the route's catch block answers 500 — not the success response the
claim promises for every input. -/
theorem forgot_password_email_failure_counterexample :
    (forgotPassword exampleAuthDb "alice@acme.test" "tok-new" 0 3600000 false).1 =
      Api.err 500 "Failed to process request" ∧
    (forgotPassword exampleAuthDb "alice@acme.test" "tok-new" 0 3600000 false).1 ≠
      Api.ok resetRequestedMsg := by
  decide

/-- Claim C6 (amended): requestPasswordReset reports the same
anti-enumeration success message whenever the email is unknown (no send
is attempted) or the triggered email-send succeeds; only an email-send
failure for an existing user surfaces as a caller-visible 500. -/
theorem forgot_password_reports_success (db : AuthDb) (email newToken : String)
    (now expiryMs : Nat) (emailOk : Bool) :
    (db.users.find? (fun u => u.email == email) = none →
      (forgotPassword db email newToken now expiryMs emailOk).1 = Api.ok resetRequestedMsg) ∧
    (emailOk = true →
      (forgotPassword db email newToken now expiryMs emailOk).1 = Api.ok resetRequestedMsg) := by
  constructor
  · intro h
    simp [forgotPassword, h]
  · intro h
    subst h
    unfold forgotPassword
    cases hf : db.users.find? (fun u => u.email == email) <;> simp

/-- Witness for the amended C6 theorem at concrete inputs: an unknown
email (with a failing sender) and a known email with a successful send
both answer the success message. -/
theorem forgot_password_reports_success_witness :
    (forgotPassword exampleAuthDb "carol@nowhere.test" "tok-new" 0 3600000 false).1 =
      Api.ok resetRequestedMsg ∧
    (forgotPassword exampleAuthDb "alice@acme.test" "tok-new" 0 3600000 true).1 =
      Api.ok resetRequestedMsg := by
  refine ⟨(forgot_password_reports_success exampleAuthDb "carol@nowhere.test" "tok-new"
      0 3600000 false).1 (by decide),
    (forgot_password_reports_success exampleAuthDb "alice@acme.test" "tok-new"
      0 3600000 true).2 rfl⟩

/-- Claim C7: a successful resetPassword consumed a stored row bearing
the presented token that was unused and unexpired, and it updates the
password hash of that row's user to the hash of the new password, marks
every stored row bearing the presented token as used, and any
subsequent resetPassword presenting the same token fails with the 400
"Invalid or expired reset token" validation error, at any later time —
even before the expiry. -/
theorem reset_token_single_use (db : AuthDb) (token newPassword : String) (now : Nat)
    (h : (resetPassword db token newPassword now).1 = Api.ok "Password reset successfully") :
    (∃ t ∈ db.resetTokens, t.token = token ∧ t.used = false ∧ now < t.expires_at ∧
      ∀ u ∈ (resetPassword db token newPassword now).2.users,
        u.id = t.user_id → u.password_hash = bcryptHash newPassword) ∧
    (∀ r ∈ (resetPassword db token newPassword now).2.resetTokens, r.token = token → r.used = true) ∧
    (∀ newPassword2 now2,
      (resetPassword (resetPassword db token newPassword now).2 token newPassword2 now2).1 =
        Api.err 400 "Invalid or expired reset token") := by
  cases hf : db.resetTokens.find?
      (fun t => t.token == token && decide (now < t.expires_at) && t.used == false) with
  | none =>
    unfold resetPassword at h
    rw [hf] at h
    simp at h
  | some t =>
    have hstate : (resetPassword db token newPassword now).2 =
        { users := db.users.map
            (fun u => if u.id == t.user_id then { u with password_hash := bcryptHash newPassword } else u)
          resetTokens := db.resetTokens.map
            (fun r => if r.token == token then { r with used := true } else r)
          nextId := db.nextId } := by
      unfold resetPassword
      rw [hf]
    have hpred := List.find?_some hf
    simp only [Bool.and_eq_true, beq_iff_eq, decide_eq_true_eq] at hpred
    refine ⟨⟨t, List.mem_of_find?_eq_some hf, hpred.1.1, hpred.2, hpred.1.2, ?_⟩, ?_, ?_⟩
    · intro u' hu' hid
      rw [hstate] at hu'
      obtain ⟨u, hu, rfl⟩ := List.mem_map.1 hu'
      by_cases h1 : u.id == t.user_id
      · simp [h1]
      · simp only [h1, if_neg, Bool.false_eq_true, if_false] at hid ⊢
        exact absurd hid (by simpa using h1)
    · intro r hr hrtok
      rw [hstate] at hr
      obtain ⟨s, hs, rfl⟩ := List.mem_map.1 hr
      by_cases h1 : s.token == token
      · simp [h1]
      · simp only [h1, if_neg, Bool.false_eq_true, if_false] at hrtok ⊢
        exact absurd hrtok (by simpa using h1)
    · intro pw2 now2
      rw [hstate]
      have hnone : (db.resetTokens.map
          (fun r => if r.token == token then { r with used := true } else r)).find?
          (fun t => t.token == token && decide (now2 < t.expires_at) && t.used == false) = none := by
        apply List.find?_eq_none.2
        intro x hx
        obtain ⟨s, hs, rfl⟩ := List.mem_map.1 hx
        by_cases h1 : s.token == token
        · simp [h1]
        · simp [h1]
      unfold resetPassword
      rw [hnone]


/-- Witness for C7: after redeeming tok-1 at time 0, presenting tok-1
again at time 500 (before its expiry 1000) fails with 400. -/
theorem reset_token_single_use_witness :
    (resetPassword (resetPassword exampleAuthDb "tok-1" "new-password" 0).2 "tok-1" "other-pw" 500).1 =
      Api.err 400 "Invalid or expired reset token" :=
  (reset_token_single_use exampleAuthDb "tok-1" "new-password" 0 (by decide)).2.2 "other-pw" 500

/-- Claim C10: forgotPassword only appends one token row (none when the
email is unknown) and leaves users and all previously issued tokens
untouched, so several outstanding tokens may be valid at once; a
successful resetPassword keeps every row with a different token
unchanged, and any other still-matching token remains redeemable. -/
theorem reset_flow_frame (db : AuthDb) (email newToken token newPassword : String)
    (now expiryMs : Nat) (emailOk : Bool) :
    ((db.users.find? (fun u => u.email == email) = none →
        (forgotPassword db email newToken now expiryMs emailOk).2 = db) ∧
     (∀ u, db.users.find? (fun v => v.email == email) = some u →
        (forgotPassword db email newToken now expiryMs emailOk).2.resetTokens =
          db.resetTokens ++
            [{ id := db.nextId, user_id := u.id, token := newToken
               expires_at := now + expiryMs, used := false }] ∧
        (forgotPassword db email newToken now expiryMs emailOk).2.users = db.users)) ∧
    ((resetPassword db token newPassword now).1 = Api.ok "Password reset successfully" →
      (∀ r ∈ db.resetTokens, r.token ≠ token →
        r ∈ (resetPassword db token newPassword now).2.resetTokens) ∧
      (∀ token2 newPassword2 now2, token2 ≠ token →
        (∃ r ∈ db.resetTokens, r.token = token2 ∧ r.used = false ∧ now2 < r.expires_at) →
        (resetPassword (resetPassword db token newPassword now).2 token2 newPassword2 now2).1 =
          Api.ok "Password reset successfully")) := by
  constructor
  · constructor
    · intro hu
      cases emailOk <;> simp [forgotPassword, hu]
    · intro u hu
      cases emailOk <;> simp [forgotPassword, hu]
  · intro h
    cases hf : db.resetTokens.find?
        (fun t => t.token == token && decide (now < t.expires_at) && t.used == false) with
    | none =>
      unfold resetPassword at h
      rw [hf] at h
      simp at h
    | some t =>
      have hstate : (resetPassword db token newPassword now).2 =
          { users := db.users.map
              (fun u => if u.id == t.user_id then { u with password_hash := bcryptHash newPassword } else u)
            resetTokens := db.resetTokens.map
              (fun r => if r.token == token then { r with used := true } else r)
            nextId := db.nextId } := by
        unfold resetPassword
        rw [hf]
      constructor
      · intro r hr hrtok
        rw [hstate]
        have : (if r.token == token then { r with used := true } else r) = r := by
          simp [beq_iff_eq, hrtok]
        refine List.mem_map.2 ⟨r, hr, this⟩
      · intro token2 pw2 now2 htok ⟨r, hr, hrtok, hrused, hrexp⟩
        rw [hstate]
        have hmem : r ∈ (db.resetTokens.map
            (fun s => if s.token == token then { s with used := true } else s)) := by
          refine List.mem_map.2 ⟨r, hr, ?_⟩
          simp [beq_iff_eq, hrtok, htok]
        have hsome : ((db.resetTokens.map
            (fun s => if s.token == token then { s with used := true } else s)).find?
            (fun s => s.token == token2 && decide (now2 < s.expires_at) && s.used == false)).isSome := by
          rw [List.find?_isSome]
          refine ⟨r, hmem, ?_⟩
          simp [hrtok, hrused, hrexp]
        cases hfind : (db.resetTokens.map
            (fun s => if s.token == token then { s with used := true } else s)).find?
            (fun s => s.token == token2 && decide (now2 < s.expires_at) && s.used == false) with
        | none => rw [hfind] at hsome; simp at hsome
        | some t2 =>
          unfold resetPassword
          rw [hfind]

/-- Witness for C10: a request for alice appends exactly one row with
the fresh token, and after redeeming tok-1 the sibling token tok-2 still
redeems successfully at time 500. -/
theorem reset_flow_frame_witness :
    (forgotPassword exampleAuthDb "alice@acme.test" "tok-new" 0 3600000 true).2.resetTokens =
      exampleAuthDb.resetTokens ++
        [{ id := 30, user_id := 10, token := "tok-new", expires_at := 0 + 3600000, used := false }] ∧
    (resetPassword (resetPassword exampleAuthDb "tok-1" "new-password" 0).2 "tok-2" "other-pw" 500).1 =
      Api.ok "Password reset successfully" := by
  refine ⟨((reset_flow_frame exampleAuthDb "alice@acme.test" "tok-new" "tok-1" "new-password"
      0 3600000 true).1.2
      { id := 10, email := "alice@acme.test", password_hash := bcryptHash "password-a"
        first_name := "Alice", last_name := "A", role := "admin", clinic_id := 1
        is_active := true, last_login_at := none } (by decide)).1,
    ((reset_flow_frame exampleAuthDb "alice@acme.test" "tok-new" "tok-1" "new-password"
      0 3600000 true).2 (by decide)).2 "tok-2" "other-pw" 500 (by decide)
      ⟨{ id := 21, user_id := 10, token := "tok-2", expires_at := 1000, used := false },
        by decide, by decide, by decide, by decide⟩⟩


/-- Claim C9: when a stored audit has no payroll items (respectively no
additional expenses, no service records), the composite row that
getAudit or listAudits returns carries null — not an empty list — for
that children field, because each json_agg FILTER aggregate over zero
matching child rows yields SQL NULL. -/
theorem empty_children_null (db : AuditDb) (clinicId : Nat) (month : String)
    (c : AuditComposite)
    (h : getAudit clinicId month db = Api.ok c ∨ c ∈ listAudits clinicId db) :
    (payrollOf db c.row.id = [] → c.payroll = none) ∧
    (expensesOf db c.row.id = [] → c.expenses = none) ∧
    (servicesOf db c.row.id = [] → c.services = none) := by
  have hcomp : ∃ a, c = compositeFor db a := by
    rcases h with h | h
    · unfold getAudit at h
      cases hfl : db.audits.filter
          (fun a => a.clinic_id == clinicId && a.audit_month == auditKey month) with
      | nil => rw [hfl] at h; simp at h
      | cons a rest =>
        rw [hfl] at h
        simp only [Api.ok.injEq] at h
        exact ⟨a, h.symm⟩
    · unfold listAudits at h
      obtain ⟨a, _, rfl⟩ := List.mem_map.1 h
      exact ⟨a, rfl⟩
  obtain ⟨a, rfl⟩ := hcomp
  refine ⟨?_, ?_, ?_⟩ <;>
    · intro hempty
      simp only [compositeFor] at hempty ⊢
      simp only [payrollOf, expensesOf, servicesOf, compositeFor] at hempty
      rw [hempty]
      simp [aggJson]

/-- Witness for C9: clinic 1's stored 2025-02 audit has no children, and
the composite getAudit returns for it carries none for all three child
fields. -/
theorem empty_children_null_witness :
    (compositeFor exampleAuditDb auditRowA).payroll = none ∧
    (compositeFor exampleAuditDb auditRowA).expenses = none ∧
    (compositeFor exampleAuditDb auditRowA).services = none := by
  have h := empty_children_null exampleAuditDb 1 "2025-02" (compositeFor exampleAuditDb auditRowA)
    (Or.inl (by decide))
  exact ⟨h.1 (by decide), h.2.1 (by decide), h.2.2 (by decide)⟩

/-- Helper: a transaction whose k-th query fails (k within the step
list) aborts with no committed state. -/
theorem applySteps_fails (steps : List (AuditDb → AuditDb)) :
    ∀ (i k : Nat) (db : AuditDb), i ≤ k → k < i + steps.length →
      applySteps steps i (some k) db = none := by
  induction steps with
  | nil =>
    intro i k db h1 h2
    simp at h2
    omega
  | cons f rest ih =>
    intro i k db h1 h2
    unfold applySteps
    by_cases hik : k = i
    · simp [hik]
    · have : ¬ (some k = some i) := by simp [hik]
      rw [if_neg this]
      exact ih (i + 1) k (f db) (by omega) (by simp at h2 ⊢; omega)

/-- Claim C3: if any step of saveAudit fails — the upsert (step 0), a
child delete (steps 1-3), or any child insert — the transaction rolls
back: the call answers the 500 failure and the stored state afterwards
is exactly the pre-call state, for the saved (clinic, month) and
everything else. -/
theorem save_audit_rolls_back (clinicId userId : Nat) (input : AuditInput)
    (db : AuditDb) (k : Nat)
    (hk : k < (saveSteps clinicId userId input db).length) :
    saveAudit clinicId userId input (some k) db = (Api.err 500 "Failed to save audit", db) := by
  unfold saveAudit
  rw [applySteps_fails _ 0 k db (Nat.zero_le k) (by omega)]

/-- Witness for C3: failing the third query (a child delete) of a save
against the two-clinic example store leaves the store exactly as it was
and answers the 500 error. -/
theorem save_audit_rolls_back_witness :
    saveAudit 1 10 exampleInput (some 2) exampleAuditDb =
      (Api.err 500 "Failed to save audit", exampleAuditDb) :=
  save_audit_rolls_back 1 10 exampleInput exampleAuditDb 2 (by
    simp [saveSteps, exampleInput, jsList])


/-- Helper: membership is invariant under the sort insertion step. -/
theorem mem_monthDescInsert (a x : AuditRow) (l : List AuditRow) :
    x ∈ monthDescInsert a l ↔ x = a ∨ x ∈ l := by
  induction l with
  | nil => simp [monthDescInsert]
  | cons b rest ih =>
    unfold monthDescInsert
    by_cases hc : b.audit_month ≤ a.audit_month
    · simp [hc]
    · rw [if_neg hc]
      simp only [List.mem_cons, ih]
      tauto

/-- Helper: the month-descending sort returns the same rows. -/
theorem mem_sortByMonthDesc (l : List AuditRow) (x : AuditRow) :
    x ∈ sortByMonthDesc l ↔ x ∈ l := by
  induction l with
  | nil => simp [sortByMonthDesc]
  | cons b rest ih =>
    simp only [sortByMonthDesc, List.foldr_cons] at *
    rw [mem_monthDescInsert]
    simp [ih]

/-- Helper: filtering by q after filtering by a weaker predicate w
equals filtering by q alone. -/
theorem filter_subpred {α : Type} (q w : α → Bool) (h : ∀ x, q x = true → w x = true)
    (l : List α) : (l.filter w).filter q = l.filter q := by
  induction l with
  | nil => rfl
  | cons a rest ih =>
    by_cases hq : q a
    · have hw := h a hq
      simp [List.filter_cons, hw, hq, ih]
    · by_cases hw : w a <;> simp [List.filter_cons, hw, hq, ih]

/-- Helper: a transaction that commits has applied every query in
order. -/
theorem applySteps_some (steps : List (AuditDb → AuditDb)) :
    ∀ (i : Nat) (failAt : Option Nat) (db db1 : AuditDb),
      applySteps steps i failAt db = some db1 →
      db1 = steps.foldl (fun d f => f d) db := by
  induction steps with
  | nil =>
    intro i f db db1 h
    simp [applySteps] at h
    simp [h.symm]
  | cons g rest ih =>
    intro i f db db1 h
    unfold applySteps at h
    by_cases hc : f = some i
    · simp [hc] at h
    · rw [if_neg hc] at h
      simpa using ih (i + 1) f (g db) db1 h

/-- Helper: a property preserved by every step is preserved by the fold. -/
theorem foldl_preserves {α : Type} (P : α → Prop) (steps : List (α → α)) :
    ∀ d : α, (∀ f ∈ steps, ∀ x, P x → P (f x)) → P d →
      P (steps.foldl (fun d f => f d) d) := by
  induction steps with
  | nil => intro d _ hd; simpa
  | cons g rest ih =>
    intro d hstep hd
    simp only [List.foldl_cons]
    exact ih (g d) (fun f hf x hx => hstep f (List.mem_cons_of_mem g hf) x hx)
      (hstep g (List.mem_cons_self g rest) d hd)


/-- Helper: the upsert touches no child table. -/
theorem upsertAudit_children (clinicId userId : Nat) (input : AuditInput) (d : AuditDb) :
    (upsertAudit clinicId userId input d).payrollItems = d.payrollItems ∧
    (upsertAudit clinicId userId input d).additionalExpenses = d.additionalExpenses ∧
    (upsertAudit clinicId userId input d).services = d.services := by
  unfold upsertAudit
  cases d.audits.find?
      (fun a => a.clinic_id == clinicId && a.audit_month == auditKey input.auditMonth) <;>
    exact ⟨rfl, rfl, rfl⟩

/-- Helper: the upsert keeps every audit row of any other clinic. -/
theorem upsertAudit_mem (clinicId userId : Nat) (input : AuditInput) (d : AuditDb)
    (b : AuditRow) (hb : (b.clinic_id == clinicId) = false) (hmem : b ∈ d.audits) :
    b ∈ (upsertAudit clinicId userId input d).audits := by
  unfold upsertAudit
  cases d.audits.find?
      (fun a => a.clinic_id == clinicId && a.audit_month == auditKey input.auditMonth) with
  | none => simp [hmem]
  | some a =>
    refine List.mem_map.2 ⟨b, hmem, ?_⟩
    simp [hb]

/-- Helper: deleting the payroll of one audit leaves any other audit's
payroll unchanged. -/
theorem payrollOf_deletePayrollFor (aid bid : Nat) (d : AuditDb) (h : aid ≠ bid) :
    payrollOf (deletePayrollFor aid d) bid = payrollOf d bid := by
  unfold payrollOf deletePayrollFor
  apply filter_subpred
  intro x hx
  simp only [beq_iff_eq] at hx
  simp [hx, Ne.symm h]

/-- Helper: deleting the expenses of one audit leaves any other audit's
expenses unchanged. -/
theorem expensesOf_deleteExpensesFor (aid bid : Nat) (d : AuditDb) (h : aid ≠ bid) :
    expensesOf (deleteExpensesFor aid d) bid = expensesOf d bid := by
  unfold expensesOf deleteExpensesFor
  apply filter_subpred
  intro x hx
  simp only [beq_iff_eq] at hx
  simp [hx, Ne.symm h]

/-- Helper: deleting the services of one audit leaves any other audit's
services unchanged. -/
theorem servicesOf_deleteServicesFor (aid bid : Nat) (d : AuditDb) (h : aid ≠ bid) :
    servicesOf (deleteServicesFor aid d) bid = servicesOf d bid := by
  unfold servicesOf deleteServicesFor
  apply filter_subpred
  intro x hx
  simp only [beq_iff_eq] at hx
  simp [hx, Ne.symm h]

/-- Helper: inserting a payroll row for one audit leaves any other
audit's payroll unchanged. -/
theorem payrollOf_insertPayrollItem (aid bid : Nat) (item : PayrollItemInput) (d : AuditDb)
    (h : aid ≠ bid) :
    payrollOf (insertPayrollItem aid item d) bid = payrollOf d bid := by
  unfold payrollOf insertPayrollItem
  simp [List.filter_append, List.filter_cons, beq_iff_eq, h]

/-- Helper: inserting an expense row for one audit leaves any other
audit's expenses unchanged. -/
theorem expensesOf_insertExpenseItem (aid bid : Nat) (item : ExpenseItemInput) (d : AuditDb)
    (h : aid ≠ bid) :
    expensesOf (insertExpenseItem aid item d) bid = expensesOf d bid := by
  unfold expensesOf insertExpenseItem
  simp [List.filter_append, List.filter_cons, beq_iff_eq, h]

/-- Helper: inserting a service row for one audit leaves any other
audit's services unchanged. -/
theorem servicesOf_insertServiceItem (aid bid : Nat) (item : ServiceItemInput) (d : AuditDb)
    (h : aid ≠ bid) :
    servicesOf (insertServiceItem aid item d) bid = servicesOf d bid := by
  unfold servicesOf insertServiceItem
  simp [List.filter_append, List.filter_cons, beq_iff_eq, h]

/-- Helper: the id the upsert targets is never the id of another
clinic's audit (the conflicting row belongs to the caller's clinic, and
a fresh id collides with nothing stored). -/
theorem upsertTargetId_ne (clinicId : Nat) (input : AuditInput) (db : AuditDb)
    (hwf : db.WF) (b : AuditRow) (hb : b ∈ db.audits) (hbc : b.clinic_id ≠ clinicId) :
    upsertTargetId clinicId input db ≠ b.id := by
  unfold upsertTargetId
  cases hf : db.audits.find?
      (fun a => a.clinic_id == clinicId && a.audit_month == auditKey input.auditMonth) with
  | none =>
    show db.nextId ≠ b.id
    have := hwf.idsLt b hb
    omega
  | some a =>
    show a.id ≠ b.id
    have hpred := List.find?_some hf
    have hmem := List.mem_of_find?_eq_some hf
    simp only [Bool.and_eq_true, beq_iff_eq] at hpred
    have hne : a ≠ b := by
      intro he
      exact hbc (he ▸ hpred.1)
    exact hwf.idsUnique.forall (fun x y hxy => Ne.symm hxy) hmem hb hne

/-- Helper: saveAudit — committed or rolled back — preserves every audit
row of another clinic together with all its children. -/
theorem saveAudit_frame (clinicId userId : Nat) (input : AuditInput) (failAt : Option Nat)
    (db : AuditDb) (hwf : db.WF) (b : AuditRow) (hb : b ∈ db.audits)
    (hbc : b.clinic_id ≠ clinicId) :
    b ∈ (saveAudit clinicId userId input failAt db).2.audits ∧
    payrollOf (saveAudit clinicId userId input failAt db).2 b.id = payrollOf db b.id ∧
    expensesOf (saveAudit clinicId userId input failAt db).2 b.id = expensesOf db b.id ∧
    servicesOf (saveAudit clinicId userId input failAt db).2 b.id = servicesOf db b.id := by
  unfold saveAudit
  cases happ : applySteps (saveSteps clinicId userId input db) 0 failAt db with
  | none => exact ⟨hb, rfl, rfl, rfl⟩
  | some db1 =>
    have hfold := applySteps_some _ 0 failAt db db1 happ
    have hbeq : (b.clinic_id == clinicId) = false := by simpa using hbc
    have haid : upsertTargetId clinicId input db ≠ b.id :=
      upsertTargetId_ne clinicId input db hwf b hb hbc
    have hP : b ∈ db1.audits ∧ payrollOf db1 b.id = payrollOf db b.id ∧
        expensesOf db1 b.id = expensesOf db b.id ∧
        servicesOf db1 b.id = servicesOf db b.id := by
      rw [hfold]
      refine foldl_preserves
        (fun d => b ∈ d.audits ∧ payrollOf d b.id = payrollOf db b.id ∧
          expensesOf d b.id = expensesOf db b.id ∧ servicesOf d b.id = servicesOf db b.id)
        (saveSteps clinicId userId input db) db ?_ ⟨hb, rfl, rfl, rfl⟩
      intro f hf x hx
      obtain ⟨hx1, hx2, hx3, hx4⟩ := hx
      simp only [saveSteps, List.mem_append, List.mem_cons, List.mem_map,
        List.not_mem_nil, or_false] at hf
      rcases hf with (((hf | hf | hf | hf) | ⟨item, hitem, hf⟩) | ⟨item, hitem, hf⟩) | ⟨item, hitem, hf⟩ <;> subst hf
      · exact ⟨upsertAudit_mem clinicId userId input x b hbeq hx1,
          by unfold payrollOf; rw [(upsertAudit_children clinicId userId input x).1]; exact hx2,
          by unfold expensesOf; rw [(upsertAudit_children clinicId userId input x).2.1]; exact hx3,
          by unfold servicesOf; rw [(upsertAudit_children clinicId userId input x).2.2]; exact hx4⟩
      · exact ⟨hx1, by rw [payrollOf_deletePayrollFor _ _ _ haid]; exact hx2, hx3, hx4⟩
      · exact ⟨hx1, hx2, by rw [expensesOf_deleteExpensesFor _ _ _ haid]; exact hx3, hx4⟩
      · exact ⟨hx1, hx2, hx3, by rw [servicesOf_deleteServicesFor _ _ _ haid]; exact hx4⟩
      · exact ⟨hx1, by rw [payrollOf_insertPayrollItem _ _ _ _ haid]; exact hx2, hx3, hx4⟩
      · exact ⟨hx1, hx2, by rw [expensesOf_insertExpenseItem _ _ _ _ haid]; exact hx3, hx4⟩
      · exact ⟨hx1, hx2, hx3, by rw [servicesOf_insertServiceItem _ _ _ _ haid]; exact hx4⟩
    exact hP


/-- Helper: deleteAudit preserves every audit row of another clinic
together with all its children. -/
theorem deleteAudit_frame (clinicId : Nat) (month : String) (db : AuditDb) (hwf : db.WF)
    (b : AuditRow) (hb : b ∈ db.audits) (hbc : b.clinic_id ≠ clinicId) :
    b ∈ (deleteAudit clinicId month db).2.audits ∧
    payrollOf (deleteAudit clinicId month db).2 b.id = payrollOf db b.id ∧
    expensesOf (deleteAudit clinicId month db).2 b.id = expensesOf db b.id ∧
    servicesOf (deleteAudit clinicId month db).2 b.id = servicesOf db b.id := by
  have hbeq : (b.clinic_id == clinicId) = false := by simpa using hbc
  have hany : ∀ p : Nat, p = b.id →
      ((db.audits.filter
        (fun a => a.clinic_id == clinicId && a.audit_month == auditKey month)).any
        (fun a => a.id == p)) = false := by
    intro p hp
    subst hp
    rw [List.any_eq_false]
    intro a ha
    obtain ⟨hamem, hapred⟩ := List.mem_filter.1 ha
    simp only [Bool.and_eq_true, beq_iff_eq] at hapred
    have hne : a ≠ b := by
      intro he
      exact hbc (he ▸ hapred.1)
    have := hwf.idsUnique.forall (fun x y hxy => Ne.symm hxy) hamem hb hne
    simp [this]
  simp only [deleteAudit]
  by_cases he : (db.audits.filter
      (fun a => a.clinic_id == clinicId && a.audit_month == auditKey month)).isEmpty
  · rw [if_pos he]
    exact ⟨hb, rfl, rfl, rfl⟩
  · rw [if_neg he]
    refine ⟨List.mem_filter.2 ⟨hb, by simp [hbeq]⟩, ?_, ?_, ?_⟩
    · unfold payrollOf
      apply filter_subpred
      intro x hx
      simp only [beq_iff_eq] at hx
      simp [hany x.monthly_audit_id hx]
    · unfold expensesOf
      apply filter_subpred
      intro x hx
      simp only [beq_iff_eq] at hx
      simp [hany x.monthly_audit_id hx]
    · unfold servicesOf
      apply filter_subpred
      intro x hx
      simp only [beq_iff_eq] at hx
      simp [hany x.monthly_audit_id hx]

/-- Claim C1: tenant isolation of the audit store. For every principal
resolved by authenticate and every other clinic B: listAudits and
getAudit only ever return audits of the principal's clinic; a month the
principal's clinic does not have yields 404 from getAudit and
deleteAudit (even when clinic B has that month), with no state change;
and deleteAudit / saveAudit never alter clinic B's audits or their
children. -/
theorem tenant_isolation (users : List UserRow) (decoded : Option Nat) (u : UserRow)
    (db : AuditDb) (clinicB : Nat)
    (_hu : authenticate users decoded = Api.ok u)
    (hwf : db.WF) (hB : clinicB ≠ u.clinic_id) :
    (∀ c ∈ listAudits u.clinic_id db, c.row.clinic_id = u.clinic_id) ∧
    (∀ month c, getAudit u.clinic_id month db = Api.ok c → c.row.clinic_id = u.clinic_id) ∧
    (∀ month, (∀ a ∈ db.audits, a.clinic_id = u.clinic_id → a.audit_month ≠ auditKey month) →
      getAudit u.clinic_id month db = Api.err 404 "Audit not found") ∧
    (∀ month, (∀ a ∈ db.audits, a.clinic_id = u.clinic_id → a.audit_month ≠ auditKey month) →
      deleteAudit u.clinic_id month db = (Api.err 404 "Audit not found", db)) ∧
    (∀ month b, b ∈ db.audits → b.clinic_id = clinicB →
      b ∈ (deleteAudit u.clinic_id month db).2.audits ∧
      payrollOf (deleteAudit u.clinic_id month db).2 b.id = payrollOf db b.id ∧
      expensesOf (deleteAudit u.clinic_id month db).2 b.id = expensesOf db b.id ∧
      servicesOf (deleteAudit u.clinic_id month db).2 b.id = servicesOf db b.id) ∧
    (∀ userId input failAt b, b ∈ db.audits → b.clinic_id = clinicB →
      b ∈ (saveAudit u.clinic_id userId input failAt db).2.audits ∧
      payrollOf (saveAudit u.clinic_id userId input failAt db).2 b.id = payrollOf db b.id ∧
      expensesOf (saveAudit u.clinic_id userId input failAt db).2 b.id = expensesOf db b.id ∧
      servicesOf (saveAudit u.clinic_id userId input failAt db).2 b.id = servicesOf db b.id) := by
  refine ⟨?_, ?_, ?_, ?_, ?_, ?_⟩
  · intro c hc
    unfold listAudits at hc
    obtain ⟨a, ha, rfl⟩ := List.mem_map.1 hc
    rw [mem_sortByMonthDesc] at ha
    obtain ⟨_, hpred⟩ := List.mem_filter.1 ha
    simpa [compositeFor] using hpred
  · intro month c h
    unfold getAudit at h
    cases hfl : db.audits.filter
        (fun a => a.clinic_id == u.clinic_id && a.audit_month == auditKey month) with
    | nil => rw [hfl] at h; simp at h
    | cons a rest =>
      rw [hfl] at h
      simp only [Api.ok.injEq] at h
      have hamem : a ∈ db.audits.filter
          (fun a => a.clinic_id == u.clinic_id && a.audit_month == auditKey month) := by
        rw [hfl]; exact List.mem_cons_self a rest
      obtain ⟨_, hpred⟩ := List.mem_filter.1 hamem
      simp only [Bool.and_eq_true, beq_iff_eq] at hpred
      rw [← h]
      exact hpred.1
  · intro month hnone
    have hfl : db.audits.filter
        (fun a => a.clinic_id == u.clinic_id && a.audit_month == auditKey month) = [] := by
      rw [List.filter_eq_nil_iff]
      intro a ha
      simp only [Bool.and_eq_true, beq_iff_eq, not_and]
      exact hnone a ha
    unfold getAudit
    rw [hfl]
  · intro month hnone
    have hfl : db.audits.filter
        (fun a => a.clinic_id == u.clinic_id && a.audit_month == auditKey month) = [] := by
      rw [List.filter_eq_nil_iff]
      intro a ha
      simp only [Bool.and_eq_true, beq_iff_eq, not_and]
      exact hnone a ha
    simp only [deleteAudit]
    rw [hfl]
    rfl
  · intro month b hb hbc
    exact deleteAudit_frame u.clinic_id month db hwf b hb (by rw [hbc]; exact hB)
  · intro userId input failAt b hb hbc
    exact saveAudit_frame u.clinic_id userId input failAt db hwf b hb (by rw [hbc]; exact hB)

/-- Witness for C1 on the two-clinic store: the listing for clinic 1 is
clinic-1-only, a month only clinic 2 has yields 404, and deleting
clinic 1's 2025-02 audit leaves clinic 2's payroll intact. -/
theorem tenant_isolation_witness :
    (∀ c ∈ listAudits 1 exampleAuditDb, c.row.clinic_id = 1) ∧
    getAudit 1 "2025-07" exampleAuditDb = Api.err 404 "Audit not found" ∧
    payrollOf (deleteAudit 1 "2025-02" exampleAuditDb).2 1 = payrollOf exampleAuditDb 1 := by
  have h := tenant_isolation exampleAuthDb.users (some 10)
    { id := 10, email := "alice@acme.test", password_hash := bcryptHash "password-a"
      first_name := "Alice", last_name := "A", role := "admin", clinic_id := 1
      is_active := true, last_login_at := none }
    exampleAuditDb 2 (by decide)
    ⟨by decide, by decide, by decide, by decide, by decide, by decide⟩ (by decide)
  exact ⟨h.1, h.2.2.1 "2025-07" (by decide),
    (h.2.2.2.2.1 "2025-02" auditRowB (by decide) (by decide)).2.1⟩


/-- Helper: with no failure injected, the transaction commits the fold
of all its queries. -/
theorem applySteps_none (steps : List (AuditDb → AuditDb)) :
    ∀ (i : Nat) (db : AuditDb),
      applySteps steps i none db = some (steps.foldl (fun d f => f d) db) := by
  induction steps with
  | nil => intro i db; rfl
  | cons g rest ih =>
    intro i db
    unfold applySteps
    rw [if_neg (by simp)]
    simpa using ih (i + 1) (g db)

/-- Helper: filtering a mapped list is mapping the filter through the
composed predicate. -/
theorem filter_of_map (g : AuditRow → AuditRow) (p : AuditRow → Bool) (l : List AuditRow) :
    (l.map g).filter p = (l.filter (fun x => p (g x))).map g := by
  induction l with
  | nil => rfl
  | cons a rest ih =>
    by_cases hp : p (g a) <;> simp [List.filter_cons, hp, ih]

/-- Helper: under the unique (clinic_id, audit_month) constraint, at
most one stored row matches a clinic-and-month filter. -/
theorem filter_key_unique (cid : Nat) (key : String) (l : List AuditRow)
    (hk : l.Pairwise (fun a b => a.clinic_id ≠ b.clinic_id ∨ a.audit_month ≠ b.audit_month)) :
    (l.filter (fun a => a.clinic_id == cid && a.audit_month == key)).length ≤ 1 := by
  induction l with
  | nil => simp
  | cons a rest ih =>
    have hk2 := (List.pairwise_cons.1 hk).2
    have hka := (List.pairwise_cons.1 hk).1
    by_cases hp : (a.clinic_id == cid && a.audit_month == key) = true
    · rw [List.filter_cons, if_pos hp]
      have hrest : rest.filter (fun a => a.clinic_id == cid && a.audit_month == key) = [] := by
        rw [List.filter_eq_nil_iff]
        intro b hb hpb
        simp only [Bool.and_eq_true, beq_iff_eq] at hp hpb
        rcases hka b hb with h | h
        · exact h (hp.1.trans hpb.1.symm)
        · exact h (hp.2.trans hpb.2.symm)
      simp [hrest]
    · rw [List.filter_cons, if_neg hp]
      exact ih hk2

/-- Helper: a list of length at most one containing a is exactly [a]. -/
theorem length_le_one_mem {α : Type} (l : List α) (a : α) (h1 : l.length ≤ 1) (h2 : a ∈ l) :
    l = [a] := by
  cases l with
  | nil => simp at h2
  | cons x rest =>
    cases rest with
    | nil => simp at h2; simp [h2]
    | cons y rest2 => simp at h1

/-- Helper: find? returns the head of the filtered list. -/
theorem find?_eq_filter_head {α : Type} (p : α → Bool) (l : List α) :
    l.find? p = (l.filter p).head? := by
  induction l with
  | nil => rfl
  | cons a rest ih =>
    by_cases hp : p a
    · rw [List.find?_cons_of_pos _ hp, List.filter_cons, if_pos hp]
      rfl
    · rw [List.find?_cons_of_neg _ hp, List.filter_cons, if_neg hp]
      exact ih


/-- Helper: keeping only rows failing q, then filtering by q, yields
nothing — a delete by key really clears that key. -/
theorem filter_filter_not {α : Type} (q : α → Bool) (l : List α) :
    (l.filter (fun x => !(q x))).filter q = [] := by
  rw [List.filter_eq_nil_iff]
  intro a ha
  have := (List.mem_filter.1 ha).2
  simp at this
  simp [this]

/-- Helper: the payroll re-insert loop appends rows that project exactly
to the submitted items, all attached to the saved audit, touching no
other table. -/
theorem foldl_insertPayroll (aid : Nat) :
    ∀ (items : List PayrollItemInput) (d : AuditDb),
      ∃ rows : List PayrollRow,
        (List.foldl (fun d f => f d) d
            (items.map (fun item => insertPayrollItem aid item))).payrollItems
          = d.payrollItems ++ rows ∧
        rows.map (fun p => (p.name, p.amount)) = items.map (fun i => (i.name, jsNum i.amount)) ∧
        (∀ p ∈ rows, p.monthly_audit_id = aid) ∧
        (List.foldl (fun d f => f d) d
            (items.map (fun item => insertPayrollItem aid item))).additionalExpenses
          = d.additionalExpenses ∧
        (List.foldl (fun d f => f d) d
            (items.map (fun item => insertPayrollItem aid item))).services = d.services ∧
        (List.foldl (fun d f => f d) d
            (items.map (fun item => insertPayrollItem aid item))).audits = d.audits := by
  intro items
  induction items with
  | nil => intro d; exact ⟨[], by simp, by simp, by simp, rfl, rfl, rfl⟩
  | cons i rest ih =>
    intro d
    obtain ⟨rows, h1, h2, h3, h4, h5, h6⟩ := ih (insertPayrollItem aid i d)
    refine ⟨{ id := d.nextId, monthly_audit_id := aid, name := i.name, amount := jsNum i.amount }
        :: rows, ?_, ?_, ?_, ?_, ?_, ?_⟩
    · simp only [List.map_cons, List.foldl_cons]
      rw [h1]
      simp [insertPayrollItem]
    · simp [h2]
    · intro p hp
      rcases List.mem_cons.1 hp with h | h
      · subst h; rfl
      · exact h3 p h
    · simp only [List.map_cons, List.foldl_cons]
      rw [h4]
      rfl
    · simp only [List.map_cons, List.foldl_cons]
      rw [h5]
      rfl
    · simp only [List.map_cons, List.foldl_cons]
      rw [h6]
      rfl

/-- Helper: the expense re-insert loop appends rows that project exactly
to the submitted items, all attached to the saved audit, touching no
other table. -/
theorem foldl_insertExpense (aid : Nat) :
    ∀ (items : List ExpenseItemInput) (d : AuditDb),
      ∃ rows : List ExpenseRow,
        (List.foldl (fun d f => f d) d
            (items.map (fun item => insertExpenseItem aid item))).additionalExpenses
          = d.additionalExpenses ++ rows ∧
        rows.map (fun e => (e.name, e.amount, e.notes))
          = items.map (fun i => (i.name, jsNum i.amount, jsStrOrNull i.notes)) ∧
        (∀ e ∈ rows, e.monthly_audit_id = aid) ∧
        (List.foldl (fun d f => f d) d
            (items.map (fun item => insertExpenseItem aid item))).payrollItems = d.payrollItems ∧
        (List.foldl (fun d f => f d) d
            (items.map (fun item => insertExpenseItem aid item))).services = d.services ∧
        (List.foldl (fun d f => f d) d
            (items.map (fun item => insertExpenseItem aid item))).audits = d.audits := by
  intro items
  induction items with
  | nil => intro d; exact ⟨[], by simp, by simp, by simp, rfl, rfl, rfl⟩
  | cons i rest ih =>
    intro d
    obtain ⟨rows, h1, h2, h3, h4, h5, h6⟩ := ih (insertExpenseItem aid i d)
    refine ⟨{ id := d.nextId, monthly_audit_id := aid, name := i.name, amount := jsNum i.amount,
              notes := jsStrOrNull i.notes } :: rows, ?_, ?_, ?_, ?_, ?_, ?_⟩
    · simp only [List.map_cons, List.foldl_cons]
      rw [h1]
      simp [insertExpenseItem]
    · simp [h2]
    · intro p hp
      rcases List.mem_cons.1 hp with h | h
      · subst h; rfl
      · exact h3 p h
    · simp only [List.map_cons, List.foldl_cons]
      rw [h4]
      rfl
    · simp only [List.map_cons, List.foldl_cons]
      rw [h5]
      rfl
    · simp only [List.map_cons, List.foldl_cons]
      rw [h6]
      rfl

/-- Helper: the service re-insert loop appends rows that project exactly
to the submitted items, all attached to the saved audit, touching no
other table. -/
theorem foldl_insertService (aid : Nat) :
    ∀ (items : List ServiceItemInput) (d : AuditDb),
      ∃ rows : List ServiceRow,
        (List.foldl (fun d f => f d) d
            (items.map (fun item => insertServiceItem aid item))).services
          = d.services ++ rows ∧
        rows.map (fun s => (s.name, s.provider_hours, s.booked_hours, s.revenue,
            s.commission, s.allocated_expenses))
          = items.map (fun i => (i.name, jsNum i.providerHours, jsNum i.bookedHours,
            jsNum i.revenue, jsNum i.commission, jsNum i.allocatedExpenses)) ∧
        (∀ s ∈ rows, s.monthly_audit_id = aid) ∧
        (List.foldl (fun d f => f d) d
            (items.map (fun item => insertServiceItem aid item))).payrollItems = d.payrollItems ∧
        (List.foldl (fun d f => f d) d
            (items.map (fun item => insertServiceItem aid item))).additionalExpenses
          = d.additionalExpenses ∧
        (List.foldl (fun d f => f d) d
            (items.map (fun item => insertServiceItem aid item))).audits = d.audits := by
  intro items
  induction items with
  | nil => intro d; exact ⟨[], by simp, by simp, by simp, rfl, rfl, rfl⟩
  | cons i rest ih =>
    intro d
    obtain ⟨rows, h1, h2, h3, h4, h5, h6⟩ := ih (insertServiceItem aid i d)
    refine ⟨{ id := d.nextId, monthly_audit_id := aid, name := i.name,
              provider_hours := jsNum i.providerHours, booked_hours := jsNum i.bookedHours,
              revenue := jsNum i.revenue, commission := jsNum i.commission,
              allocated_expenses := jsNum i.allocatedExpenses } :: rows, ?_, ?_, ?_, ?_, ?_, ?_⟩
    · simp only [List.map_cons, List.foldl_cons]
      rw [h1]
      simp [insertServiceItem]
    · simp [h2]
    · intro p hp
      rcases List.mem_cons.1 hp with h | h
      · subst h; rfl
      · exact h3 p h
    · simp only [List.map_cons, List.foldl_cons]
      rw [h4]
      rfl
    · simp only [List.map_cons, List.foldl_cons]
      rw [h5]
      rfl
    · simp only [List.map_cons, List.foldl_cons]
      rw [h6]
      rfl


/-- Helper: after the upsert, exactly one stored row matches the saved
clinic and month, and it carries the id the upsert returned. -/
theorem upsertAudit_rows (clinicId userId : Nat) (input : AuditInput) (db : AuditDb)
    (hk : db.audits.Pairwise (fun a b => a.clinic_id ≠ b.clinic_id ∨ a.audit_month ≠ b.audit_month)) :
    ∃ r, auditRowsFor (upsertAudit clinicId userId input db) clinicId input.auditMonth = [r] ∧
      r.id = upsertTargetId clinicId input db := by
  unfold auditRowsFor upsertAudit upsertTargetId
  cases hf : db.audits.find?
      (fun a => a.clinic_id == clinicId && a.audit_month == auditKey input.auditMonth) with
  | none =>
    refine ⟨freshAuditRow clinicId userId input db.nextId, ?_, rfl⟩
    show (db.audits ++ [freshAuditRow clinicId userId input db.nextId]).filter
        (fun a : AuditRow => a.clinic_id == clinicId && a.audit_month == auditKey input.auditMonth) = _
    rw [List.filter_append]
    have h1 : db.audits.filter
        (fun a => a.clinic_id == clinicId && a.audit_month == auditKey input.auditMonth) = [] := by
      rw [List.filter_eq_nil_iff]
      exact List.find?_eq_none.1 hf
    rw [h1]
    simp [freshAuditRow]
  | some a0 =>
    have hpred := List.find?_some hf
    have hmem := List.mem_of_find?_eq_some hf
    refine ⟨applyConflictUpdate input a0, ?_, rfl⟩
    show (db.audits.map (fun a : AuditRow =>
        if a.clinic_id == clinicId && a.audit_month == auditKey input.auditMonth then
          applyConflictUpdate input a else a)).filter
        (fun a : AuditRow => a.clinic_id == clinicId && a.audit_month == auditKey input.auditMonth) = _
    rw [filter_of_map]
    have hcong : db.audits.filter
        (fun x => ((if x.clinic_id == clinicId && x.audit_month == auditKey input.auditMonth then
            applyConflictUpdate input x else x).clinic_id == clinicId &&
          (if x.clinic_id == clinicId && x.audit_month == auditKey input.auditMonth then
            applyConflictUpdate input x else x).audit_month == auditKey input.auditMonth)) =
        db.audits.filter
          (fun a => a.clinic_id == clinicId && a.audit_month == auditKey input.auditMonth) := by
      apply List.filter_congr
      intro x _
      by_cases hpx : (x.clinic_id == clinicId && x.audit_month == auditKey input.auditMonth) = true
      · rw [if_pos hpx, hpx]
        exact hpx
      · rw [if_neg hpx]
    have hone : db.audits.filter
        (fun a => a.clinic_id == clinicId && a.audit_month == auditKey input.auditMonth) = [a0] :=
      length_le_one_mem _ a0 (filter_key_unique clinicId (auditKey input.auditMonth) db.audits hk)
        (List.mem_filter.2 ⟨hmem, hpred⟩)
    rw [hcong, hone]
    simp only [List.map_cons, List.map_nil]
    rw [if_pos hpred]

/-- Helper: the upsert preserves uniqueness of (clinic_id, audit_month). -/
theorem upsertAudit_keys (clinicId userId : Nat) (input : AuditInput) (db : AuditDb)
    (hk : db.audits.Pairwise (fun a b => a.clinic_id ≠ b.clinic_id ∨ a.audit_month ≠ b.audit_month)) :
    (upsertAudit clinicId userId input db).audits.Pairwise
      (fun a b => a.clinic_id ≠ b.clinic_id ∨ a.audit_month ≠ b.audit_month) := by
  unfold upsertAudit
  cases hf : db.audits.find?
      (fun a => a.clinic_id == clinicId && a.audit_month == auditKey input.auditMonth) with
  | some a0 =>
    refine List.Pairwise.map _ ?_ hk
    intro a b hab
    by_cases hpa : (a.clinic_id == clinicId && a.audit_month == auditKey input.auditMonth) = true <;>
      by_cases hpb : (b.clinic_id == clinicId && b.audit_month == auditKey input.auditMonth) = true <;>
      simp only [if_pos, if_neg, hpa, hpb, if_true, if_false] <;>
      simpa [applyConflictUpdate] using hab
  | none =>
    rw [List.pairwise_append]
    refine ⟨hk, List.pairwise_singleton _ _, ?_⟩
    intro a ha b hb
    rw [List.mem_singleton] at hb
    subst hb
    have := List.find?_eq_none.1 hf a ha
    simp only [Bool.and_eq_true, beq_iff_eq, not_and] at this
    by_cases hc : a.clinic_id = clinicId
    · exact Or.inr (by simpa [freshAuditRow] using this hc)
    · exact Or.inl (by simpa [freshAuditRow] using hc)


/-- Helper: when exactly one row matches the clinic and month, the
upsert target id is that row's id. -/
theorem upsertTargetId_of_filter (clinicId : Nat) (input : AuditInput) (d : AuditDb) (r : AuditRow)
    (h : d.audits.filter
      (fun a => a.clinic_id == clinicId && a.audit_month == auditKey input.auditMonth) = [r]) :
    upsertTargetId clinicId input d = r.id := by
  unfold upsertTargetId
  rw [find?_eq_filter_head, h]
  rfl

/-- Helper: postcondition of a successful saveAudit — the call returns
the upserted id, exactly one row holds the saved (clinic, month), the
stored children of that id are exactly the submitted lists, key
uniqueness is preserved, and a repeat save targets the same id. -/
theorem saveAudit_success_post (clinicId userId : Nat) (input : AuditInput) (db : AuditDb)
    (hk : db.audits.Pairwise (fun a b => a.clinic_id ≠ b.clinic_id ∨ a.audit_month ≠ b.audit_month)) :
    (saveAudit clinicId userId input none db).1 = Api.ok (upsertTargetId clinicId input db) ∧
    (∃ r, auditRowsFor (saveAudit clinicId userId input none db).2 clinicId input.auditMonth = [r] ∧
      r.id = (upsertTargetId clinicId input db)) ∧
    (payrollOf (saveAudit clinicId userId input none db).2 (upsertTargetId clinicId input db)).map
      (fun p => (p.name, p.amount)) = (jsList input.payroll).map (fun i => (i.name, jsNum i.amount)) ∧
    (expensesOf (saveAudit clinicId userId input none db).2 (upsertTargetId clinicId input db)).map
      (fun e => (e.name, e.amount, e.notes)) =
      (jsList input.expenses).map (fun i => (i.name, jsNum i.amount, jsStrOrNull i.notes)) ∧
    (servicesOf (saveAudit clinicId userId input none db).2 (upsertTargetId clinicId input db)).map
      (fun s => (s.name, s.provider_hours, s.booked_hours, s.revenue, s.commission,
        s.allocated_expenses)) =
      (jsList input.services).map (fun i => (i.name, jsNum i.providerHours, jsNum i.bookedHours,
        jsNum i.revenue, jsNum i.commission, jsNum i.allocatedExpenses)) ∧
    (saveAudit clinicId userId input none db).2.audits.Pairwise
      (fun a b => a.clinic_id ≠ b.clinic_id ∨ a.audit_month ≠ b.audit_month) ∧
    upsertTargetId clinicId input (saveAudit clinicId userId input none db).2 = (upsertTargetId clinicId input db) := by
  have hsave1 : (saveAudit clinicId userId input none db).1 = Api.ok (upsertTargetId clinicId input db) := by
    unfold saveAudit
    rw [applySteps_none]
  have hsave2 : (saveAudit clinicId userId input none db).2 = (saveSteps clinicId userId input db).foldl (fun d f => f d) db := by
    unfold saveAudit
    rw [applySteps_none]
  have hfold : (saveSteps clinicId userId input db).foldl (fun d f => f d) db = (((jsList input.services).map (fun item => insertServiceItem (upsertTargetId clinicId input db) item)).foldl (fun d f => f d) (((jsList input.expenses).map (fun item => insertExpenseItem (upsertTargetId clinicId input db) item)).foldl (fun d f => f d) (((jsList input.payroll).map (fun item => insertPayrollItem (upsertTargetId clinicId input db) item)).foldl (fun d f => f d) (deleteServicesFor (upsertTargetId clinicId input db) (deleteExpensesFor (upsertTargetId clinicId input db) (deletePayrollFor (upsertTargetId clinicId input db) (upsertAudit clinicId userId input db))))))) := by
    simp only [saveSteps]
    rw [List.foldl_append, List.foldl_append, List.foldl_append]
    simp only [List.foldl_cons, List.foldl_nil]
  rw [hfold] at hsave2
  obtain ⟨Prows, hP1, hP2, hP3, hP4, hP5, hP6⟩ :=
    foldl_insertPayroll (upsertTargetId clinicId input db) (jsList input.payroll) (deleteServicesFor (upsertTargetId clinicId input db) (deleteExpensesFor (upsertTargetId clinicId input db) (deletePayrollFor (upsertTargetId clinicId input db) (upsertAudit clinicId userId input db))))
  obtain ⟨Erows, hE1, hE2, hE3, hE4, hE5, hE6⟩ :=
    foldl_insertExpense (upsertTargetId clinicId input db) (jsList input.expenses) (((jsList input.payroll).map (fun item => insertPayrollItem (upsertTargetId clinicId input db) item)).foldl (fun d f => f d) (deleteServicesFor (upsertTargetId clinicId input db) (deleteExpensesFor (upsertTargetId clinicId input db) (deletePayrollFor (upsertTargetId clinicId input db) (upsertAudit clinicId userId input db)))))
  obtain ⟨Srows, hS1, hS2, hS3, hS4, hS5, hS6⟩ :=
    foldl_insertService (upsertTargetId clinicId input db) (jsList input.services) (((jsList input.expenses).map (fun item => insertExpenseItem (upsertTargetId clinicId input db) item)).foldl (fun d f => f d) (((jsList input.payroll).map (fun item => insertPayrollItem (upsertTargetId clinicId input db) item)).foldl (fun d f => f d) (deleteServicesFor (upsertTargetId clinicId input db) (deleteExpensesFor (upsertTargetId clinicId input db) (deletePayrollFor (upsertTargetId clinicId input db) (upsertAudit clinicId userId input db))))))
  have hApay : (deleteServicesFor (upsertTargetId clinicId input db) (deleteExpensesFor (upsertTargetId clinicId input db) (deletePayrollFor (upsertTargetId clinicId input db) (upsertAudit clinicId userId input db)))).payrollItems =
      db.payrollItems.filter (fun p => !(p.monthly_audit_id == (upsertTargetId clinicId input db))) := by
    show (upsertAudit clinicId userId input db).payrollItems.filter (fun p => !(p.monthly_audit_id == (upsertTargetId clinicId input db))) = _
    rw [(upsertAudit_children clinicId userId input db).1]
  have hAexp : (deleteServicesFor (upsertTargetId clinicId input db) (deleteExpensesFor (upsertTargetId clinicId input db) (deletePayrollFor (upsertTargetId clinicId input db) (upsertAudit clinicId userId input db)))).additionalExpenses =
      db.additionalExpenses.filter (fun e => !(e.monthly_audit_id == (upsertTargetId clinicId input db))) := by
    show (upsertAudit clinicId userId input db).additionalExpenses.filter (fun e => !(e.monthly_audit_id == (upsertTargetId clinicId input db))) = _
    rw [(upsertAudit_children clinicId userId input db).2.1]
  have hAsvc : (deleteServicesFor (upsertTargetId clinicId input db) (deleteExpensesFor (upsertTargetId clinicId input db) (deletePayrollFor (upsertTargetId clinicId input db) (upsertAudit clinicId userId input db)))).services =
      db.services.filter (fun s => !(s.monthly_audit_id == (upsertTargetId clinicId input db))) := by
    show (upsertAudit clinicId userId input db).services.filter (fun s => !(s.monthly_audit_id == (upsertTargetId clinicId input db))) = _
    rw [(upsertAudit_children clinicId userId input db).2.2]
  have hFpay : (((jsList input.services).map (fun item => insertServiceItem (upsertTargetId clinicId input db) item)).foldl (fun d f => f d) (((jsList input.expenses).map (fun item => insertExpenseItem (upsertTargetId clinicId input db) item)).foldl (fun d f => f d) (((jsList input.payroll).map (fun item => insertPayrollItem (upsertTargetId clinicId input db) item)).foldl (fun d f => f d) (deleteServicesFor (upsertTargetId clinicId input db) (deleteExpensesFor (upsertTargetId clinicId input db) (deletePayrollFor (upsertTargetId clinicId input db) (upsertAudit clinicId userId input db))))))).payrollItems =
      db.payrollItems.filter (fun p => !(p.monthly_audit_id == (upsertTargetId clinicId input db))) ++ Prows := by
    rw [hS4, hE4, hP1, hApay]
  have hFexp : (((jsList input.services).map (fun item => insertServiceItem (upsertTargetId clinicId input db) item)).foldl (fun d f => f d) (((jsList input.expenses).map (fun item => insertExpenseItem (upsertTargetId clinicId input db) item)).foldl (fun d f => f d) (((jsList input.payroll).map (fun item => insertPayrollItem (upsertTargetId clinicId input db) item)).foldl (fun d f => f d) (deleteServicesFor (upsertTargetId clinicId input db) (deleteExpensesFor (upsertTargetId clinicId input db) (deletePayrollFor (upsertTargetId clinicId input db) (upsertAudit clinicId userId input db))))))).additionalExpenses =
      db.additionalExpenses.filter (fun e => !(e.monthly_audit_id == (upsertTargetId clinicId input db))) ++ Erows := by
    rw [hS5, hE1, hP4, hAexp]
  have hFsvc : (((jsList input.services).map (fun item => insertServiceItem (upsertTargetId clinicId input db) item)).foldl (fun d f => f d) (((jsList input.expenses).map (fun item => insertExpenseItem (upsertTargetId clinicId input db) item)).foldl (fun d f => f d) (((jsList input.payroll).map (fun item => insertPayrollItem (upsertTargetId clinicId input db) item)).foldl (fun d f => f d) (deleteServicesFor (upsertTargetId clinicId input db) (deleteExpensesFor (upsertTargetId clinicId input db) (deletePayrollFor (upsertTargetId clinicId input db) (upsertAudit clinicId userId input db))))))).services =
      db.services.filter (fun s => !(s.monthly_audit_id == (upsertTargetId clinicId input db))) ++ Srows := by
    rw [hS1, hE5, hP5, hAsvc]
  have hFaud : (((jsList input.services).map (fun item => insertServiceItem (upsertTargetId clinicId input db) item)).foldl (fun d f => f d) (((jsList input.expenses).map (fun item => insertExpenseItem (upsertTargetId clinicId input db) item)).foldl (fun d f => f d) (((jsList input.payroll).map (fun item => insertPayrollItem (upsertTargetId clinicId input db) item)).foldl (fun d f => f d) (deleteServicesFor (upsertTargetId clinicId input db) (deleteExpensesFor (upsertTargetId clinicId input db) (deletePayrollFor (upsertTargetId clinicId input db) (upsertAudit clinicId userId input db))))))).audits = (upsertAudit clinicId userId input db).audits := by
    rw [hS6, hE6, hP6]
    rfl
  obtain ⟨r, hr1, hr2⟩ := upsertAudit_rows clinicId userId input db hk
  have hrows : auditRowsFor (((jsList input.services).map (fun item => insertServiceItem (upsertTargetId clinicId input db) item)).foldl (fun d f => f d) (((jsList input.expenses).map (fun item => insertExpenseItem (upsertTargetId clinicId input db) item)).foldl (fun d f => f d) (((jsList input.payroll).map (fun item => insertPayrollItem (upsertTargetId clinicId input db) item)).foldl (fun d f => f d) (deleteServicesFor (upsertTargetId clinicId input db) (deleteExpensesFor (upsertTargetId clinicId input db) (deletePayrollFor (upsertTargetId clinicId input db) (upsertAudit clinicId userId input db))))))) clinicId input.auditMonth = [r] := by
    unfold auditRowsFor at hr1 ⊢
    rw [hFaud]
    exact hr1
  refine ⟨hsave1, ⟨r, by rw [hsave2]; exact hrows, hr2⟩, ?_, ?_, ?_, ?_, ?_⟩
  · rw [hsave2]
    unfold payrollOf
    rw [hFpay, List.filter_append, filter_filter_not, List.nil_append,
      List.filter_eq_self.2 (fun p hp => by simp [hP3 p hp])]
    exact hP2
  · rw [hsave2]
    unfold expensesOf
    rw [hFexp, List.filter_append, filter_filter_not, List.nil_append,
      List.filter_eq_self.2 (fun e he => by simp [hE3 e he])]
    exact hE2
  · rw [hsave2]
    unfold servicesOf
    rw [hFsvc, List.filter_append, filter_filter_not, List.nil_append,
      List.filter_eq_self.2 (fun s hs => by simp [hS3 s hs])]
    exact hS2
  · rw [hsave2, hFaud]
    exact upsertAudit_keys clinicId userId input db hk
  · rw [hsave2]
    have hflt : (((jsList input.services).map (fun item => insertServiceItem (upsertTargetId clinicId input db) item)).foldl (fun d f => f d) (((jsList input.expenses).map (fun item => insertExpenseItem (upsertTargetId clinicId input db) item)).foldl (fun d f => f d) (((jsList input.payroll).map (fun item => insertPayrollItem (upsertTargetId clinicId input db) item)).foldl (fun d f => f d) (deleteServicesFor (upsertTargetId clinicId input db) (deleteExpensesFor (upsertTargetId clinicId input db) (deletePayrollFor (upsertTargetId clinicId input db) (upsertAudit clinicId userId input db))))))).audits.filter
        (fun a => a.clinic_id == clinicId && a.audit_month == auditKey input.auditMonth) = [r] := by
      unfold auditRowsFor at hrows
      exact hrows
    exact (upsertTargetId_of_filter clinicId input _ r hflt).trans hr2


/-- Claim C4: full replace and idempotence of saveAudit children. After
a successful save the stored audit for the (clinic, month) is a single
row and its stored payroll/expense/service children are exactly the
submitted lists (so an audit previously holding three payroll items
holds exactly the one submitted afterwards); and an identical second
save leaves one MonthlyAudit row with the same id and exactly the
submitted children, with no duplication. -/
theorem save_audit_replace_idempotent (clinicId userId : Nat) (input : AuditInput)
    (db : AuditDb) (hwf : db.WF) :
    ((saveAudit clinicId userId input none db).1 = Api.ok (upsertTargetId clinicId input db) ∧
     (∃ r, auditRowsFor (saveAudit clinicId userId input none db).2 clinicId input.auditMonth = [r] ∧ r.id = (upsertTargetId clinicId input db)) ∧
     (payrollOf (saveAudit clinicId userId input none db).2 (upsertTargetId clinicId input db)).map (fun p => (p.name, p.amount)) =
       (jsList input.payroll).map (fun i => (i.name, jsNum i.amount)) ∧
     (expensesOf (saveAudit clinicId userId input none db).2 (upsertTargetId clinicId input db)).map (fun e => (e.name, e.amount, e.notes)) =
       (jsList input.expenses).map (fun i => (i.name, jsNum i.amount, jsStrOrNull i.notes)) ∧
     (servicesOf (saveAudit clinicId userId input none db).2 (upsertTargetId clinicId input db)).map (fun s => (s.name, s.provider_hours, s.booked_hours,
         s.revenue, s.commission, s.allocated_expenses)) =
       (jsList input.services).map (fun i => (i.name, jsNum i.providerHours, jsNum i.bookedHours,
         jsNum i.revenue, jsNum i.commission, jsNum i.allocatedExpenses))) ∧
    ((saveAudit clinicId userId input none (saveAudit clinicId userId input none db).2).1 = Api.ok (upsertTargetId clinicId input db) ∧
     (∃ r, auditRowsFor (saveAudit clinicId userId input none (saveAudit clinicId userId input none db).2).2 clinicId input.auditMonth = [r] ∧ r.id = (upsertTargetId clinicId input db)) ∧
     (payrollOf (saveAudit clinicId userId input none (saveAudit clinicId userId input none db).2).2 (upsertTargetId clinicId input db)).map (fun p => (p.name, p.amount)) =
       (jsList input.payroll).map (fun i => (i.name, jsNum i.amount)) ∧
     (expensesOf (saveAudit clinicId userId input none (saveAudit clinicId userId input none db).2).2 (upsertTargetId clinicId input db)).map (fun e => (e.name, e.amount, e.notes)) =
       (jsList input.expenses).map (fun i => (i.name, jsNum i.amount, jsStrOrNull i.notes)) ∧
     (servicesOf (saveAudit clinicId userId input none (saveAudit clinicId userId input none db).2).2 (upsertTargetId clinicId input db)).map (fun s => (s.name, s.provider_hours, s.booked_hours,
         s.revenue, s.commission, s.allocated_expenses)) =
       (jsList input.services).map (fun i => (i.name, jsNum i.providerHours, jsNum i.bookedHours,
         jsNum i.revenue, jsNum i.commission, jsNum i.allocatedExpenses))) := by
  have h1 := saveAudit_success_post clinicId userId input db hwf.keysUnique
  have h2 := saveAudit_success_post clinicId userId input (saveAudit clinicId userId input none db).2 h1.2.2.2.2.2.1
  rw [h1.2.2.2.2.2.2] at h2
  exact ⟨⟨h1.1, h1.2.1, h1.2.2.1, h1.2.2.2.1, h1.2.2.2.2.1⟩,
    ⟨h2.1, h2.2.1, h2.2.2.1, h2.2.2.2.1, h2.2.2.2.2.1⟩⟩

/-- Witness for C4 on the two-clinic store: saving, then saving again
with identical input, both report the upserted id and leave the
submitted single payroll line as the exact stored payroll. -/
theorem save_audit_replace_idempotent_witness :
    (saveAudit 1 10 exampleInput none exampleAuditDb).1 =
      Api.ok (upsertTargetId 1 exampleInput exampleAuditDb) ∧
    (payrollOf (saveAudit 1 10 exampleInput none exampleAuditDb).2
        (upsertTargetId 1 exampleInput exampleAuditDb)).map (fun p => (p.name, p.amount)) =
      (jsList exampleInput.payroll).map (fun i => (i.name, jsNum i.amount)) ∧
    (payrollOf (saveAudit 1 10 exampleInput none
        (saveAudit 1 10 exampleInput none exampleAuditDb).2).2
        (upsertTargetId 1 exampleInput exampleAuditDb)).map (fun p => (p.name, p.amount)) =
      (jsList exampleInput.payroll).map (fun i => (i.name, jsNum i.amount)) := by
  have h := save_audit_replace_idempotent 1 10 exampleInput exampleAuditDb
    ⟨by decide, by decide, by decide, by decide, by decide, by decide⟩
  exact ⟨h.1.1, h.1.2.2.1, h.2.2.2.1⟩


end ClinicAudit
